import Mathlib

/-!
# Verification of the DevRamps CLI deployment orchestration engine

This file gives a shallow embedding, in Lean 4, of the deployment
orchestration core of the DevRamps CLI (a TypeScript program):

* the bucket-policy merge strategy (`src/merge/bucket-policy.ts`),
* the cross-account credential resolver (`src/aws/assume-role.ts`),
* the stack status prober, change preview, and per-stack deployment state
  machine (`src/aws/cloudformation.ts`),
* the deployment plan builder and the phased concurrent executor
  (`src/commands/bootstrap.ts`).

Network calls made by the program (CloudFormation, STS, S3) are modelled
by explicit response values ("oracles") passed to the embedded functions:
every provider interaction that can influence control flow appears as an
input, so the embedded definitions are pure and executable, and each
mirrors the corresponding TypeScript function statement by statement.
JavaScript truthiness on optional strings is modelled by using `""` for
absent values where the source uses `value || ''` or `if (value)`.
-/

namespace DevRampsCLI

/-! ## JavaScript string helpers

`String.prototype.includes` — substring containment — is used throughout
the source to classify provider error messages.  We implement it as plain
structural recursion over character lists so that it is kernel-computable.
-/

/-- Does the character list `p` occur at the head of `l`? (`p` is a leading
segment of `l`). -/
def charsLead : List Char → List Char → Bool
  | [], _ => true
  | _ :: _, [] => false
  | a :: as, b :: bs => a == b && charsLead as bs

/-- Does the character list `p` occur somewhere inside `l`?  Mirrors
JavaScript `String.prototype.includes` semantics (empty pattern matches). -/
def charsWithin (p : List Char) : List Char → Bool
  | [] => p.isEmpty
  | l@(_ :: t) => charsLead p l || charsWithin p t

/-- JavaScript `s.includes(pat)`. -/
def strIncludes (s pat : String) : Bool :=
  charsWithin pat.data s.data

/-- Insertion into a JavaScript `Set` materialised as an insertion-ordered
duplicate-free list (`Array.from(new Set(...))` preserves first-insertion
order). -/
def setAdd (l : List String) (x : String) : List String :=
  if x ∈ l then l else l ++ [x]

/-- `Array.from` of a JS `Set` built by inserting the elements of `xs`
into the set `acc`. -/
def setAddAll (acc : List String) (xs : List String) : List String :=
  xs.foldl setAdd acc

/-! ## The bucket-policy merge strategy (`src/merge/bucket-policy.ts`)

`BucketPolicyData` is the strategy's single data shape: the list of AWS
account ids allowed to access the Terraform state bucket.
-/

/-- `interface BucketPolicyData { allowedAccountIds: string[] }`. -/
structure BucketPolicyData where
  allowedAccountIds : List String
deriving DecidableEq, Repr

/-- `BucketPolicyMergeStrategy.merge`: insert the existing ids (when
present) and then the new ids into a `Set`, then sort the result
lexicographically (`Array.from(set).sort()`). -/
def bucketPolicyMerge (existing : Option BucketPolicyData)
    (newData : BucketPolicyData) : BucketPolicyData :=
  let afterExisting : List String :=
    match existing with
    | some e => setAddAll [] e.allowedAccountIds
    | none => []
  let merged := setAddAll afterExisting newData.allowedAccountIds
  ⟨merged.insertionSort (· ≤ ·)⟩

/-- `isValidAwsAccountId` (`src/utils/validation.ts`): the string matches
`/^\d{12}$/`. -/
def isValidAwsAccountId (accountId : String) : Bool :=
  accountId.data.length == 12 && accountId.data.all (·.isDigit)

/-- `MergeContext` restricted to the fields `collectNew` reads: the CI/CD
account id and, per pipeline, the slug and target account ids. -/
structure MergePipeline where
  slug : String
  targetAccountIds : List String
deriving DecidableEq, Repr

structure MergeContext where
  cicdAccountId : String
  pipelines : List MergePipeline
deriving DecidableEq, Repr

/-- `BucketPolicyMergeStrategy.collectNew`: validates the CI/CD account id
and every pipeline's target account ids (12-digit format), failing fast
with an error naming the offending pipeline slug and value; on success
returns the insertion-ordered set of all collected ids. -/
def bucketPolicyCollectNew (ctx : MergeContext) : Except String BucketPolicyData := do
  if !isValidAwsAccountId ctx.cicdAccountId then
    throw ("Invalid CI/CD account ID: \x22" ++ ctx.cicdAccountId ++
      "\x22. AWS account IDs must be exactly 12 digits.")
  let init := setAdd [] ctx.cicdAccountId
  let ids ← ctx.pipelines.foldlM (fun acc p => do
    p.targetAccountIds.foldlM (fun acc2 accountId => do
      if !isValidAwsAccountId accountId then
        throw ("Invalid target account ID in pipeline \x22" ++ p.slug ++
          "\x22: \x22" ++ accountId ++ "\x22. AWS account IDs must be exactly 12 digits.")
      pure (setAdd acc2 accountId)) acc) init
  pure ⟨ids⟩

/-! ### Helper lemmas about `setAdd` / sorting -/

theorem mem_setAdd {l : List String} {x y : String} :
    y ∈ setAdd l x ↔ y ∈ l ∨ y = x := by
  unfold setAdd
  by_cases h : x ∈ l
  · simp only [if_pos h]
    constructor
    · exact Or.inl
    · rintro (hy | rfl)
      · exact hy
      · exact h
  · simp only [if_neg h, List.mem_append, List.mem_singleton]

theorem nodup_setAdd {l : List String} (h : l.Nodup) (x : String) :
    (setAdd l x).Nodup := by
  unfold setAdd
  by_cases hx : x ∈ l
  · simpa [hx]
  · simp only [if_neg hx]
    simpa [List.nodup_append] using ⟨h, hx⟩

theorem setAddAll_nil (acc : List String) : setAddAll acc [] = acc := rfl

theorem setAddAll_cons (acc : List String) (a : String) (as : List String) :
    setAddAll acc (a :: as) = setAddAll (setAdd acc a) as := rfl

theorem mem_setAddAll {acc xs : List String} {y : String} :
    y ∈ setAddAll acc xs ↔ y ∈ acc ∨ y ∈ xs := by
  induction xs generalizing acc with
  | nil => simp [setAddAll_nil]
  | cons a as ih =>
    rw [setAddAll_cons, ih, mem_setAdd]
    constructor
    · rintro ((h | rfl) | h) <;> simp_all
    · rintro (h | h)
      · exact Or.inl (Or.inl h)
      · rcases List.mem_cons.mp h with rfl | h
        · exact Or.inl (Or.inr rfl)
        · exact Or.inr h

theorem nodup_setAddAll {acc : List String} (h : acc.Nodup) (xs : List String) :
    (setAddAll acc xs).Nodup := by
  induction xs generalizing acc with
  | nil => simpa [setAddAll_nil]
  | cons a as ih =>
    rw [setAddAll_cons]
    exact ih (nodup_setAdd h a)

theorem bucketPolicyMerge_ids (existing : Option BucketPolicyData)
    (newData : BucketPolicyData) :
    (bucketPolicyMerge existing newData).allowedAccountIds =
      (setAddAll
        (match existing with
         | some e => setAddAll [] e.allowedAccountIds
         | none => []) newData.allowedAccountIds).insertionSort (· ≤ ·) := rfl

theorem bucketPolicyMerge_sorted (existing : Option BucketPolicyData)
    (newData : BucketPolicyData) :
    (bucketPolicyMerge existing newData).allowedAccountIds.Sorted (· ≤ ·) := by
  rw [bucketPolicyMerge_ids]
  apply List.sorted_insertionSort

theorem bucketPolicyMerge_nodup (existing : Option BucketPolicyData)
    (newData : BucketPolicyData) :
    (bucketPolicyMerge existing newData).allowedAccountIds.Nodup := by
  rw [bucketPolicyMerge_ids, (List.perm_insertionSort (· ≤ ·) _).nodup_iff]
  cases existing with
  | none => exact nodup_setAddAll List.nodup_nil _
  | some e => exact nodup_setAddAll (nodup_setAddAll List.nodup_nil _) _

theorem bucketPolicyMerge_mem (existing : Option BucketPolicyData)
    (newData : BucketPolicyData) (x : String) :
    x ∈ (bucketPolicyMerge existing newData).allowedAccountIds ↔
      (∃ e, existing = some e ∧ x ∈ e.allowedAccountIds) ∨
        x ∈ newData.allowedAccountIds := by
  rw [bucketPolicyMerge_ids, (List.perm_insertionSort (· ≤ ·) _).mem_iff]
  cases existing with
  | none => simp [mem_setAddAll]
  | some e => simp [mem_setAddAll]

/-- Two sorted, duplicate-free string lists with the same members are
equal. -/
theorem sorted_nodup_ext {l₁ l₂ : List String}
    (s₁ : l₁.Sorted (· ≤ ·)) (s₂ : l₂.Sorted (· ≤ ·))
    (n₁ : l₁.Nodup) (n₂ : l₂.Nodup)
    (h : ∀ x, x ∈ l₁ ↔ x ∈ l₂) : l₁ = l₂ := by
  apply List.eq_of_perm_of_sorted _ s₁ s₂
  exact (List.perm_ext_iff_of_nodup n₁ n₂).mpr h

theorem bucketPolicyData_ext {a b : BucketPolicyData}
    (h : a.allowedAccountIds = b.allowedAccountIds) : a = b := by
  cases a; cases b; simpa using h

/-- Two merge results with the same member sets are equal outright. -/
theorem bucketPolicyMerge_congr {e₁ e₂ : Option BucketPolicyData}
    {n₁ n₂ : BucketPolicyData}
    (h : ∀ x, x ∈ (bucketPolicyMerge e₁ n₁).allowedAccountIds ↔
      x ∈ (bucketPolicyMerge e₂ n₂).allowedAccountIds) :
    bucketPolicyMerge e₁ n₁ = bucketPolicyMerge e₂ n₂ :=
  bucketPolicyData_ext (sorted_nodup_ext
    (bucketPolicyMerge_sorted e₁ n₁) (bucketPolicyMerge_sorted e₂ n₂)
    (bucketPolicyMerge_nodup e₁ n₁) (bucketPolicyMerge_nodup e₂ n₂) h)

/-- C3: for all account-id lists `A` and `B`, the bucket-policy strategy's
`merge` is commutative (`merge(A,B) = merge(B,A)`) and idempotent
(`merge(merge(A,B), B) = merge(A,B)`); its result is sorted
lexicographically, duplicate-free, and its members are exactly the
set-union of the members of the two inputs; and `merge(absent, B)`
processes `B` alone (it equals the merge of `B` with an empty existing
list, and its members are exactly `B`'s). -/
theorem C3_bucket_policy_merge_algebra (A B : BucketPolicyData) :
    bucketPolicyMerge (some A) B = bucketPolicyMerge (some B) A ∧
    bucketPolicyMerge (some (bucketPolicyMerge (some A) B)) B =
      bucketPolicyMerge (some A) B ∧
    (bucketPolicyMerge (some A) B).allowedAccountIds.Sorted (· ≤ ·) ∧
    (bucketPolicyMerge (some A) B).allowedAccountIds.Nodup ∧
    (∀ x, x ∈ (bucketPolicyMerge (some A) B).allowedAccountIds ↔
      x ∈ A.allowedAccountIds ∨ x ∈ B.allowedAccountIds) ∧
    bucketPolicyMerge none B = bucketPolicyMerge (some ⟨[]⟩) B ∧
    (∀ x, x ∈ (bucketPolicyMerge none B).allowedAccountIds ↔
      x ∈ B.allowedAccountIds) := by
  refine ⟨?_, ?_, bucketPolicyMerge_sorted _ _, bucketPolicyMerge_nodup _ _,
    ?_, ?_, ?_⟩
  · apply bucketPolicyMerge_congr
    intro x
    rw [bucketPolicyMerge_mem, bucketPolicyMerge_mem]
    simp [or_comm]
  · apply bucketPolicyMerge_congr
    intro x
    rw [bucketPolicyMerge_mem, bucketPolicyMerge_mem]
    simp only [Option.some.injEq, exists_eq_left', bucketPolicyMerge_mem]
    tauto
  · intro x
    rw [bucketPolicyMerge_mem]
    simp
  · apply bucketPolicyMerge_congr
    intro x
    rw [bucketPolicyMerge_mem, bucketPolicyMerge_mem]
    simp
  · intro x
    rw [bucketPolicyMerge_mem]
    simp

/-! ## The cross-account credential resolver (`src/aws/assume-role.ts`)

`assumeRoleForAccount` tries an ordered list of role names, stopping at
the first success.  The STS `AssumeRole` network call is modelled by an
oracle `tryAssume : String → Except String α` from a role ARN to either
credentials (of an abstract type `α`, since their content is opaque to
the resolver's control flow) or an error message.
-/

def DEFAULT_TARGET_ROLE : String := "OrganizationAccountAccessRole"

def FALLBACK_TARGET_ROLE : String := "AWSControlTowerExecution"

/-- The role ARN template used for every attempt:
`arn:aws:iam::<target>:role/<roleName>`. -/
def roleArnFor (targetAccountId roleName : String) : String :=
  "arn:aws:iam::" ++ targetAccountId ++ ":role/" ++ roleName

/-- `RoleAssumptionError` (`src/utils/errors.ts`).  The class constructor
takes exactly two parameters and stores exactly these two fields; the
third argument passed at the throw site in `assume-role.ts`
(`currentAccountId`) does not correspond to any constructor parameter and
is dropped, so the error value does not carry it. -/
structure RoleAssumptionError where
  accountId : String
  roleName : String
deriving DecidableEq, Repr

/-- `AssumedRoleCredentials` as returned on success. -/
structure AssumedRole (α : Type) where
  credentials : α
  accountId : String
  roleArn : String
deriving DecidableEq, Repr

/-- Result of `assumeRoleForAccount`: `null` (use ambient credentials),
a successful assumption, or the thrown `RoleAssumptionError`. -/
inductive AssumeRoleResult (α : Type) where
  | useCurrent
  | assumed (value : AssumedRole α)
  | failed (e : RoleAssumptionError)
deriving DecidableEq, Repr

/-- The `for (const roleName of rolesToTry)` loop body.  When a specific
role was requested the loop `break`s after its first failure; since in
that case `rolesToTry` is the one-element list, falling through to the
next element only ever happens in the two-element default/fallback case,
so plain recursion over the remaining list is the exact loop behaviour. -/
def tryRolesLoop {α : Type} (tryAssume : String → Except String α)
    (targetAccountId : String) : List String → Option (AssumedRole α)
  | [] => none
  | roleName :: rest =>
    match tryAssume (roleArnFor targetAccountId roleName) with
    | .ok credentials =>
        some ⟨credentials, targetAccountId, roleArnFor targetAccountId roleName⟩
    | .error _ => tryRolesLoop tryAssume targetAccountId rest

/-- `assumeRoleForAccount` (`src/aws/assume-role.ts`). -/
def assumeRoleForAccount {α : Type} (tryAssume : String → Except String α)
    (targetAccountId currentAccountId : String)
    (targetRoleName : Option String) : AssumeRoleResult α :=
  if targetAccountId = currentAccountId then .useCurrent
  else
    let rolesToTry := match targetRoleName with
      | some r => [r]
      | none => [DEFAULT_TARGET_ROLE, FALLBACK_TARGET_ROLE]
    match tryRolesLoop tryAssume targetAccountId rolesToTry with
    | some value => .assumed value
    | none =>
        let attemptedRole := match targetRoleName with
          | some r => r
          | none => DEFAULT_TARGET_ROLE ++ " or " ++ FALLBACK_TARGET_ROLE
        .failed ⟨targetAccountId, attemptedRole⟩

/-- C5: evaluation of the resolver at a failing input.  With both
candidate roles failing, the resolver raises `RoleAssumptionError` only
after the default role and then the fallback role failed, and the raised
value carries the target account id and the attempted-roles text — and
nothing else: `RoleAssumptionError` has no `currentAccountId` field (the
third argument at the throw site is dropped by the two-parameter class
constructor).  With an explicitly supplied role, only that role is named;
and when only the default role fails, the fallback is still tried and
succeeds. -/
theorem C5_role_assumption_failure_evaluation :
    assumeRoleForAccount (α := Unit) (fun _ => .error "AccessDenied")
        "222222222222" "111111111111" none =
      .failed ⟨"222222222222",
        "OrganizationAccountAccessRole or AWSControlTowerExecution"⟩ ∧
    assumeRoleForAccount (α := Unit) (fun _ => .error "AccessDenied")
        "222222222222" "111111111111" (some "CustomRole") =
      .failed ⟨"222222222222", "CustomRole"⟩ ∧
    assumeRoleForAccount (α := Unit)
        (fun arn =>
          if arn = roleArnFor "222222222222" DEFAULT_TARGET_ROLE then
            .error "AccessDenied"
          else .ok ())
        "222222222222" "111111111111" none =
      .assumed ⟨(), "222222222222",
        roleArnFor "222222222222" FALLBACK_TARGET_ROLE⟩ := by
  refine ⟨rfl, rfl, ?_⟩
  simp [assumeRoleForAccount, tryRolesLoop, roleArnFor,
    DEFAULT_TARGET_ROLE, FALLBACK_TARGET_ROLE]

/-! ## The stack status prober (`src/aws/cloudformation.ts`, `getStackStatus`)

The `DescribeStacks` call is modelled by its response: either an output
carrying a (possibly empty) stack list, or a rejection carrying an error
message.
-/

/-- The fields of a `DescribeStacks` stack record that the prober reads. -/
structure StackSummary where
  stackStatus : Option String
  stackId : Option String
deriving DecidableEq, Repr

/-- Outcome of the `DescribeStacksCommand` network call. -/
inductive DescribeStacksResult where
  | ok (stackList : List StackSummary)
  | err (message : String)
deriving DecidableEq, Repr

/-- `StackStatus` (`src/types/aws.ts`) as populated by `getStackStatus`. -/
structure StackStatus where
  exists_ : Bool
  status : Option String
  stackId : Option String
deriving DecidableEq, Repr

/-- `getStackStatus`: probes a stack; a response whose message contains
`does not exist` maps to `{exists: false}`; any other error is
re-thrown. -/
def getStackStatus (resp : DescribeStacksResult) : Except String StackStatus :=
  match resp with
  | .ok stackList =>
    match stackList.head? with
    | none => .ok ⟨false, none, none⟩
    | some stack => .ok ⟨true, stack.stackStatus, stack.stackId⟩
  | .err message =>
    if strIncludes message "does not exist" then .ok ⟨false, none, none⟩
    else .error message

/-- C6: a "stack not found" provider response (an error whose message
contains `does not exist`, or an output without a stack record) returns
`{exists: false}` and never raises; every other provider error propagates
unchanged to the caller, never converted into `{exists: false}`. -/
theorem C6_stack_status_probe_errors (message : String)
    (stackList : List StackSummary) :
    (strIncludes message "does not exist" = true →
      getStackStatus (.err message) = .ok ⟨false, none, none⟩) ∧
    (strIncludes message "does not exist" = false →
      getStackStatus (.err message) = .error message) ∧
    (∃ st, getStackStatus (.ok stackList) = .ok st) := by
  refine ⟨fun h => ?_, fun h => ?_, ?_⟩
  · simp [getStackStatus, h]
  · simp [getStackStatus, h]
  · cases stackList with
    | nil => exact ⟨⟨false, none, none⟩, rfl⟩
    | cons s rest => exact ⟨⟨true, s.stackStatus, s.stackId⟩, rfl⟩

/-- Witness for C6 at concrete inputs. -/
theorem C6_stack_status_probe_errors_witness :
    getStackStatus (.err "Stack with id Foo does not exist") =
      .ok ⟨false, none, none⟩ ∧
    getStackStatus (.err "User is not authorized") =
      .error "User is not authorized" := by
  refine ⟨?_, ?_⟩
  · exact (C6_stack_status_probe_errors "Stack with id Foo does not exist" []).1
      (by decide)
  · exact (C6_stack_status_probe_errors "User is not authorized" []).2.1
      (by decide)

/-! ## The stack deployment state machine (`src/aws/cloudformation.ts`)

`waitForStackWithProgress` polls `DescribeStacks` and
`DescribeStackEvents` on a fixed interval until the stack's status enters
a fixed terminal set, tracking per-resource completion and the most
recent failure reason, and reporting the outcome to the multi-stack
progress registry.  The poll loop's provider interactions are modelled by
a list of `WaitPoll` observations, one per loop iteration: the elapsed
time `Date.now() - startTime` at the top of the iteration, the first
stack record of the `DescribeStacks` response (`none` when the response
carries no stack), and the `DescribeStackEvents` list (newest first, as
the API returns it).  A trace that ends before the loop stops yields the
marker outcome `outOfTrace` (the real loop would simply keep polling).
-/

def TERMINAL_STATES : List String :=
  ["CREATE_COMPLETE", "CREATE_FAILED", "DELETE_COMPLETE", "DELETE_FAILED",
   "ROLLBACK_COMPLETE", "ROLLBACK_FAILED", "UPDATE_COMPLETE", "UPDATE_FAILED",
   "UPDATE_ROLLBACK_COMPLETE", "UPDATE_ROLLBACK_FAILED"]

def SUCCESS_STATES : List String := ["CREATE_COMPLETE", "UPDATE_COMPLETE"]

/-- `isResourceComplete`: only `*_COMPLETE` statuses not containing
`ROLLBACK` count as progress (an absent status is the empty string). -/
def isResourceComplete (status : String) : Bool :=
  strIncludes status "_COMPLETE" && !(strIncludes status "ROLLBACK")

/-- A `DescribeStackEvents` record, restricted to the fields read by the
loop.  Absent optional strings are `""` (JavaScript falsy). -/
structure StackEvent where
  eventId : String
  timestamp : Nat
  logicalResourceId : String
  resourceStatus : String
  resourceStatusReason : String
deriving DecidableEq, Repr

/-- One poll-loop iteration's provider responses. -/
structure WaitPoll where
  elapsedMs : Nat
  stack : Option String
  events : List StackEvent
deriving DecidableEq, Repr

/-- The per-stack record kept by the `MultiStackProgress` registry
(`src/utils/logger.ts`), restricted to one stack (each task only ever
writes its own key). -/
structure StackProgressState where
  status : String
  completed : Nat
  total : Nat
  cfnStatus : Option String
  latestResourceId : Option String
  failureReason : Option String
deriving DecidableEq, Repr

/-- `MultiStackProgress.startStack`. -/
def startStackProg (r : StackProgressState) : StackProgressState :=
  { r with status := "in_progress", cfnStatus := some "STARTING" }

/-- `MultiStackProgress.updateStack`: `if (cfnStatus)` and
`if (latestResourceId)` assign only truthy (non-empty) values. -/
def updateStackProg (r : StackProgressState) (completed : Nat)
    (status : String) (cfnStatus : String) (latestResourceId : String) :
    StackProgressState :=
  { r with
    completed := completed
    status := status
    cfnStatus := if cfnStatus ≠ "" then some cfnStatus else r.cfnStatus
    latestResourceId :=
      if latestResourceId ≠ "" then some latestResourceId
      else r.latestResourceId }

/-- `MultiStackProgress.completeStack`: `if (failureReason)` assigns only
a truthy (present and non-empty) reason, so a later call without a reason
preserves an earlier one. -/
def completeStackProg (r : StackProgressState) (success : Bool)
    (failureReason : Option String) : StackProgressState :=
  { r with
    status := if success then "complete" else "failed"
    completed := if success then r.total else r.completed
    failureReason :=
      match failureReason with
      | some fr => if fr ≠ "" then some fr else r.failureReason
      | none => r.failureReason }

/-- The loop-local tracking state of `waitForStackWithProgress`:
`seenEventIds`, `completedResources` (both JS `Set`s),
`latestResourceId` and `latestFailureReason` (both initially `''`). -/
structure TrackState where
  seenEventIds : List String
  completedResources : List String
  latestResourceId : String
  latestFailureReason : String
deriving DecidableEq, Repr

def TrackState.initial : TrackState := ⟨[], [], "", ""⟩

/-- The body of `for (const event of newEvents)`: record the event id as
seen, and for events about a resource other than the stack itself, update
the latest resource id, the completed-resource set (on non-rollback
`*_COMPLETE` statuses), and capture the failure reason of any `FAILED`
resource event that carries one (formatted `logicalId: reason`). -/
def processEvent (stackName : String) (st : TrackState) (e : StackEvent) :
    TrackState :=
  let st := { st with
    seenEventIds :=
      if e.eventId ≠ "" then setAdd st.seenEventIds e.eventId
      else st.seenEventIds }
  if e.logicalResourceId ≠ "" ∧ e.logicalResourceId ≠ stackName then
    { st with
      latestResourceId := e.logicalResourceId
      completedResources :=
        if isResourceComplete e.resourceStatus then
          setAdd st.completedResources e.logicalResourceId
        else st.completedResources
      latestFailureReason :=
        if strIncludes e.resourceStatus "FAILED" ∧ e.resourceStatusReason ≠ "" then
          e.logicalResourceId ++ ": " ++ e.resourceStatusReason
        else st.latestFailureReason }
  else st

/-- The `newEvents` filter: drop events from before the operation started,
events without an id, and events already seen; then process oldest
first (`.reverse()`). -/
def filterNewEvents (operationStartTime : Nat) (seen : List String)
    (events : List StackEvent) : List StackEvent :=
  (events.filter (fun e =>
    decide (operationStartTime ≤ e.timestamp) && e.eventId ≠ "" &&
      !(seen.contains e.eventId))).reverse

/-- One iteration's event handling: filter the response against the
current seen-set, then fold the loop body over the new events. -/
def processPoll (stackName : String) (operationStartTime : Nat)
    (st : TrackState) (events : List StackEvent) : TrackState :=
  (filterNewEvents operationStartTime st.seenEventIds events).foldl
    (processEvent stackName) st

/-- `waitForStackWithProgress`'s way of terminating: return normally on a
success state, or propagate a thrown error message. -/
inductive WaitOutcome where
  | success
  | thrown (msg : String)
  | outOfTrace
deriving DecidableEq, Repr

def timeoutMessage (maxWaitTime : Nat) : String :=
  "Stack operation timed out after " ++ toString maxWaitTime ++ " seconds"

def stackNotFoundMessage (stackName : String) : String :=
  "Stack " ++ stackName ++ " not found"

def operationFailedMessage (currentStatus : String) : String :=
  "Stack operation failed with status: " ++ currentStatus

/-- `waitForStackWithProgress` (`src/aws/cloudformation.ts`): the poll
loop, with the surrounding `try`/`catch` that reports a reason-less
failure to the progress registry before re-throwing.  The default
`maxWaitTime` at every call site is 600 (seconds). -/
def waitForStackWithProgress (stackName : String) (maxWaitTime : Nat)
    (operationStartTime : Nat) (st : TrackState) (r : StackProgressState) :
    List WaitPoll → WaitOutcome × StackProgressState
  | [] => (.outOfTrace, r)
  | p :: rest =>
    if maxWaitTime * 1000 < p.elapsedMs then
      (.thrown (timeoutMessage maxWaitTime), completeStackProg r false none)
    else
      match p.stack with
      | none =>
          (.thrown (stackNotFoundMessage stackName),
            completeStackProg r false none)
      | some currentStatus =>
        let st' := processPoll stackName operationStartTime st p.events
        let displayStatus :=
          if strIncludes currentStatus "ROLLBACK" then "rollback"
          else if strIncludes currentStatus "FAILED" then "failed"
          else "in_progress"
        let r' := updateStackProg r st'.completedResources.length
          displayStatus currentStatus st'.latestResourceId
        if TERMINAL_STATES.contains currentStatus then
          let success := SUCCESS_STATES.contains currentStatus
          let failureReason :=
            if success then none
            else some (if st'.latestFailureReason ≠ "" then
              st'.latestFailureReason else currentStatus)
          let r'' := completeStackProg r' success failureReason
          if success then (.success, r'')
          else (.thrown (operationFailedMessage currentStatus),
            completeStackProg r'' false none)
        else
          waitForStackWithProgress stackName maxWaitTime operationStartTime
            st' r' rest

/-! ### `deployStack` (`src/aws/cloudformation.ts`)

`deployStack` probes the stack, decides between delete-then-create,
update, and create, submits the operation and delegates to the poll
loop; its `catch` turns a "No updates are to be performed" rejection
into success and wraps any other failure in a `CloudFormationError`.
Provider interactions are modelled by the `DeployEnv` oracle; the
submissions actually performed are reported as a `SubmittedOp` list.
-/

/-- The provider submissions `deployStack` can perform, in order. -/
inductive SubmittedOp where
  | deleteSubmitted
  | deleteWaitCompleted
  | createSubmitted
  | updateSubmitted
deriving DecidableEq, Repr

/-- `CloudFormationError` (`src/utils/errors.ts`): name, context fields,
and the formatted message. -/
structure CloudFormationError where
  name : String
  stackName : String
  accountId : String
  message : String
deriving DecidableEq, Repr

def mkCloudFormationError (stackName accountId cause : String) :
    CloudFormationError :=
  ⟨"CloudFormationError", stackName, accountId,
    "Failed to deploy stack '" ++ stackName ++ "' in account " ++
      accountId ++ ": " ++ cause⟩

/-- Provider responses consumed by one `deployStack` run. -/
structure DeployEnv where
  describeResp : DescribeStacksResult
  deleteSend : Except String Unit
  deleteWait : Except String Unit
  createSend : Except String Unit
  createStartTime : Nat
  createPolls : List WaitPoll
  updateSend : Except String Unit
  updateStartTime : Nat
  updatePolls : List WaitPoll
deriving Repr

/-- How the `try` block of `deployStack` ends. -/
inductive TryOut where
  | ok
  | errored (msg : String)
  | outOfTrace
deriving DecidableEq, Repr

def tryOutOfWait : WaitOutcome → TryOut
  | .success => .ok
  | .thrown m => .errored m
  | .outOfTrace => .outOfTrace

/-- `createStack`: submit `CreateStackCommand`, then wait (default
ceiling 600 s). -/
def createStackRun (stackName : String) (env : DeployEnv)
    (r : StackProgressState) : TryOut × StackProgressState × List SubmittedOp :=
  match env.createSend with
  | .error m => (.errored m, r, [.createSubmitted])
  | .ok _ =>
    let (out, r') := waitForStackWithProgress stackName 600
      env.createStartTime TrackState.initial r env.createPolls
    (tryOutOfWait out, r', [.createSubmitted])

/-- `updateStack`: submit `UpdateStackCommand`, then wait (default
ceiling 600 s). -/
def updateStackRun (stackName : String) (env : DeployEnv)
    (r : StackProgressState) : TryOut × StackProgressState × List SubmittedOp :=
  match env.updateSend with
  | .error m => (.errored m, r, [.updateSubmitted])
  | .ok _ =>
    let (out, r') := waitForStackWithProgress stackName 600
      env.updateStartTime TrackState.initial r env.updatePolls
    (tryOutOfWait out, r', [.updateSubmitted])

/-- `deleteStack`: submit `DeleteStackCommand` and await
`waitUntilStackDeleteComplete`. -/
def deleteStackRun (env : DeployEnv) : TryOut × List SubmittedOp :=
  match env.deleteSend with
  | .error m => (.errored m, [.deleteSubmitted])
  | .ok _ =>
    match env.deleteWait with
    | .error m => (.errored m, [.deleteSubmitted])
    | .ok _ => (.ok, [.deleteSubmitted, .deleteWaitCompleted])

/-- Result of `deployStack`: normal return, the thrown
`CloudFormationError`, or an exhausted poll trace. -/
inductive DeployResult where
  | ok
  | error (e : CloudFormationError)
  | outOfTrace
deriving DecidableEq, Repr

/-- `deployStack` (`src/aws/cloudformation.ts`). -/
def deployStack (stackName accountId : String) (env : DeployEnv)
    (r0 : StackProgressState) :
    DeployResult × StackProgressState × List SubmittedOp :=
  let r := startStackProg r0
  let inner : TryOut × StackProgressState × List SubmittedOp :=
    match getStackStatus env.describeResp with
    | .error m => (.errored m, r, [])
    | .ok stackStatus =>
      if stackStatus.exists_ = true ∧ stackStatus.status = some "ROLLBACK_COMPLETE" then
        match deleteStackRun env with
        | (.ok, delOps) =>
          let (t, r', ops) := createStackRun stackName env r
          (t, r', delOps ++ ops)
        | (t, delOps) => (t, r, delOps)
      else if stackStatus.exists_ = true then
        updateStackRun stackName env r
      else
        createStackRun stackName env r
  match inner with
  | (.ok, r', ops) => (.ok, r', ops)
  | (.outOfTrace, r', ops) => (.outOfTrace, r', ops)
  | (.errored m, r', ops) =>
    if strIncludes m "No updates are to be performed" then
      (.ok, completeStackProg r' true none, ops)
    else
      (.error (mkCloudFormationError stackName accountId m),
        completeStackProg r' false none, ops)

/-! ### `previewStackChanges` (`src/aws/cloudformation.ts`)

The change preview probes the stack *outside* its `try`/`catch`, skips
preview for stacks that do not exist, and otherwise creates, waits for,
describes, and deletes a change set, swallowing (logging) every error of
that inner sequence; on a non-"no changes" error it attempts a
best-effort cleanup whose own failure is ignored.  The number of changes
in the description stands in for the change list, whose content is only
logged.
-/

structure PreviewEnv where
  describeResp : DescribeStacksResult
  createCS : Except String Unit
  waitCS : Except String Unit
  describeCS : Except String Nat
  deleteCS : Except String Unit
  deleteCSRetry : Except String Unit
deriving Repr

/-- The change-set API calls `previewStackChanges` performs. -/
inductive PreviewCall where
  | createChangeSetCall
  | deleteChangeSetCall
deriving DecidableEq, Repr

inductive PreviewOutcome where
  | willCreate
  | previewed (changes : Nat)
  | noChanges
  | loggedError (msg : String) (cleanupOk : Bool)
deriving DecidableEq, Repr

/-- The `catch` branch of `previewStackChanges`: "no changes" rejections
return quietly; anything else triggers a best-effort cleanup (its own
failure ignored) and is logged, not thrown. -/
def previewCatch (env : PreviewEnv) (m : String) (calls : List PreviewCall) :
    Except String PreviewOutcome × List PreviewCall :=
  if strIncludes m "No updates are to be performed" ||
      strIncludes m "didn't contain changes" then
    (.ok .noChanges, calls)
  else
    (.ok (.loggedError m (match env.deleteCSRetry with
      | .ok _ => true
      | .error _ => false)), calls ++ [.deleteChangeSetCall])

/-- `previewStackChanges` (`src/aws/cloudformation.ts`). -/
def previewStackChanges (env : PreviewEnv) :
    Except String PreviewOutcome × List PreviewCall :=
  match getStackStatus env.describeResp with
  | .error m => (.error m, [])
  | .ok stackStatus =>
    if stackStatus.exists_ = false then (.ok .willCreate, [])
    else
      match env.createCS with
      | .error m => previewCatch env m [.createChangeSetCall]
      | .ok _ =>
        match env.waitCS with
        | .error m => previewCatch env m [.createChangeSetCall]
        | .ok _ =>
          match env.describeCS with
          | .error m => previewCatch env m [.createChangeSetCall]
          | .ok changes =>
            match env.deleteCS with
            | .ok _ => (.ok (.previewed changes),
                [.createChangeSetCall, .deleteChangeSetCall])
            | .error m =>
                previewCatch env m [.createChangeSetCall, .deleteChangeSetCall]

/-! ### Helper lemmas about the deployment runs -/

theorem createStackRun_ops (stackName : String) (env : DeployEnv)
    (r : StackProgressState) :
    (createStackRun stackName env r).2.2 = [.createSubmitted] := by
  unfold createStackRun
  cases env.createSend with
  | error m => rfl
  | ok u =>
    rcases hw : waitForStackWithProgress stackName 600 env.createStartTime
      TrackState.initial r env.createPolls with ⟨out, r'⟩
    simp [hw]

theorem updateStackRun_ops (stackName : String) (env : DeployEnv)
    (r : StackProgressState) :
    (updateStackRun stackName env r).2.2 = [.updateSubmitted] := by
  unfold updateStackRun
  cases env.updateSend with
  | error m => rfl
  | ok u =>
    rcases hw : waitForStackWithProgress stackName 600 env.updateStartTime
      TrackState.initial r env.updatePolls with ⟨out, r'⟩
    simp [hw]

theorem deleteStackRun_shape (env : DeployEnv) :
    (∃ m, deleteStackRun env = (.errored m, [.deleteSubmitted])) ∨
      deleteStackRun env = (.ok, [.deleteSubmitted, .deleteWaitCompleted]) := by
  unfold deleteStackRun
  cases env.deleteSend with
  | error m => exact Or.inl ⟨m, rfl⟩
  | ok u =>
    cases env.deleteWait with
    | error m => exact Or.inl ⟨m, rfl⟩
    | ok v => exact Or.inr rfl

/-- The submissions performed by `deployStack`, by probe outcome. -/
theorem deployStack_ops (stackName accountId : String) (env : DeployEnv)
    (r0 : StackProgressState) (st : StackStatus)
    (h : getStackStatus env.describeResp = .ok st) :
    (deployStack stackName accountId env r0).2.2 =
      if st.exists_ = true ∧ st.status = some "ROLLBACK_COMPLETE" then
        match deleteStackRun env with
        | (.ok, delOps) => delOps ++ [.createSubmitted]
        | (_, delOps) => delOps
      else if st.exists_ = true then [.updateSubmitted]
      else [.createSubmitted] := by
  unfold deployStack
  rw [h]
  by_cases hrb : st.exists_ = true ∧ st.status = some "ROLLBACK_COMPLETE"
  · simp only [if_pos hrb]
    rcases hdel : deleteStackRun env with ⟨t, delOps⟩
    cases t with
    | ok =>
      rcases hc : createStackRun stackName env (startStackProg r0) with ⟨tc, rc, opsc⟩
      have hops : opsc = [.createSubmitted] := by
        have := createStackRun_ops stackName env (startStackProg r0)
        rw [hc] at this
        exact this
      subst hops
      cases tc with
      | ok => simp [hc]
      | errored m =>
        simp only [hc]
        split <;> simp
      | outOfTrace => simp [hc]
    | errored m =>
      simp only
      split <;> simp
    | outOfTrace => simp
  · simp only [if_neg hrb]
    by_cases hex : st.exists_ = true
    · simp only [if_pos hex]
      rcases hu : updateStackRun stackName env (startStackProg r0) with ⟨tu, ru, opsu⟩
      have hops : opsu = [.updateSubmitted] := by
        have := updateStackRun_ops stackName env (startStackProg r0)
        rw [hu] at this
        exact this
      subst hops
      cases tu with
      | ok => simp [hu]
      | errored m =>
        simp only [hu]
        split <;> simp
      | outOfTrace => simp [hu]
    · simp only [if_neg hex]
      rcases hc : createStackRun stackName env (startStackProg r0) with ⟨tc, rc, opsc⟩
      have hops : opsc = [.createSubmitted] := by
        have := createStackRun_ops stackName env (startStackProg r0)
        rw [hc] at this
        exact this
      subst hops
      cases tc with
      | ok => simp [hc]
      | errored m =>
        simp only [hc]
        split <;> simp
      | outOfTrace => simp [hc]

/-- C7: when a deployment begins and the existing stack's status is
`ROLLBACK_COMPLETE`, the stack is deleted and deletion is awaited before
a fresh create is submitted (and no update is submitted); in every other
existing-stack case an update is submitted; when the stack does not
exist a create is submitted. -/
theorem C7_rollback_complete_recreate (stackName accountId : String)
    (env : DeployEnv) (r0 : StackProgressState) (st : StackStatus)
    (h : getStackStatus env.describeResp = .ok st) :
    (st.exists_ = true ∧ st.status = some "ROLLBACK_COMPLETE" →
      ((deleteStackRun env).1 = .ok →
        (deployStack stackName accountId env r0).2.2 =
          [.deleteSubmitted, .deleteWaitCompleted, .createSubmitted]) ∧
      ((deleteStackRun env).1 ≠ .ok →
        (deployStack stackName accountId env r0).2.2 = [.deleteSubmitted]) ∧
      SubmittedOp.updateSubmitted ∉ (deployStack stackName accountId env r0).2.2) ∧
    (st.exists_ = true ∧ st.status ≠ some "ROLLBACK_COMPLETE" →
      (deployStack stackName accountId env r0).2.2 = [.updateSubmitted]) ∧
    (st.exists_ = false →
      (deployStack stackName accountId env r0).2.2 = [.createSubmitted]) := by
  rw [deployStack_ops stackName accountId env r0 st h]
  refine ⟨fun hrb => ?_, fun hnrb => ?_, fun hne => ?_⟩
  · rcases deleteStackRun_shape env with ⟨m, hdel⟩ | hdel
    · refine ⟨fun hok => ?_, fun _ => ?_, ?_⟩
      · rw [hdel] at hok
        exact absurd hok (by simp)
      · simp [if_pos hrb, hdel]
      · simp [if_pos hrb, hdel]
    · refine ⟨fun _ => ?_, fun hnok => ?_, ?_⟩
      · simp [if_pos hrb, hdel]
      · rw [hdel] at hnok
        exact absurd rfl hnok
      · simp [if_pos hrb, hdel]
  · rw [if_neg (by tauto), if_pos hnrb.1]
  · rw [if_neg (by simp [hne]), if_neg (by simp [hne])]

/-- Witness for C7: a stack in `ROLLBACK_COMPLETE` with a clean delete is
deleted, awaited, and re-created. -/
theorem C7_rollback_complete_recreate_witness :
    (deployStack "S" "111111111111"
      { describeResp := .ok [⟨some "ROLLBACK_COMPLETE", some "id"⟩],
        deleteSend := .ok (), deleteWait := .ok (), createSend := .ok (),
        createStartTime := 0, createPolls := [],
        updateSend := .ok (), updateStartTime := 0, updatePolls := [] }
      ⟨"pending", 0, 1, none, none, none⟩).2.2 =
      [.deleteSubmitted, .deleteWaitCompleted, .createSubmitted] := by
  exact ((C7_rollback_complete_recreate "S" "111111111111"
    { describeResp := .ok [⟨some "ROLLBACK_COMPLETE", some "id"⟩],
      deleteSend := .ok (), deleteWait := .ok (), createSend := .ok (),
      createStartTime := 0, createPolls := [],
      updateSend := .ok (), updateStartTime := 0, updatePolls := [] }
    ⟨"pending", 0, 1, none, none, none⟩
    ⟨true, some "ROLLBACK_COMPLETE", some "id"⟩ rfl).1
    ⟨rfl, rfl⟩).1 rfl

/-- C8: an UPDATE submission rejected with "No updates are to be
performed" resolves the deployment as success: `deployStack` returns
normally and the stack's progress record is marked complete. -/
theorem C8_no_updates_is_success (stackName accountId : String)
    (env : DeployEnv) (r0 : StackProgressState) (st : StackStatus) (m : String)
    (h : getStackStatus env.describeResp = .ok st)
    (hex : st.exists_ = true) (hrb : st.status ≠ some "ROLLBACK_COMPLETE")
    (hupd : env.updateSend = .error m)
    (hm : strIncludes m "No updates are to be performed" = true) :
    (deployStack stackName accountId env r0).1 = .ok ∧
    (deployStack stackName accountId env r0).2.1.status = "complete" := by
  have hinner : (deployStack stackName accountId env r0) =
      (.ok, completeStackProg (startStackProg r0) true none, [.updateSubmitted]) := by
    unfold deployStack
    rw [h]
    have h1 : ¬(st.exists_ = true ∧ st.status = some "ROLLBACK_COMPLETE") := by
      tauto
    simp only [if_neg h1, if_pos hex]
    unfold updateStackRun
    simp only [hupd]
    simp [hm]
  rw [hinner]
  exact ⟨rfl, rfl⟩

/-- Witness for C8 at a concrete environment. -/
theorem C8_no_updates_is_success_witness :
    (deployStack "S" "111111111111"
      { describeResp := .ok [⟨some "UPDATE_COMPLETE", some "id"⟩],
        deleteSend := .ok (), deleteWait := .ok (), createSend := .ok (),
        createStartTime := 0, createPolls := [],
        updateSend := .error "No updates are to be performed.",
        updateStartTime := 0, updatePolls := [] }
      ⟨"pending", 0, 1, none, none, none⟩).1 = .ok ∧
    (deployStack "S" "111111111111"
      { describeResp := .ok [⟨some "UPDATE_COMPLETE", some "id"⟩],
        deleteSend := .ok (), deleteWait := .ok (), createSend := .ok (),
        createStartTime := 0, createPolls := [],
        updateSend := .error "No updates are to be performed.",
        updateStartTime := 0, updatePolls := [] }
      ⟨"pending", 0, 1, none, none, none⟩).2.1.status = "complete" :=
  C8_no_updates_is_success "S" "111111111111" _ _
    ⟨true, some "UPDATE_COMPLETE", some "id"⟩ "No updates are to be performed."
    rfl rfl (by decide) rfl (by decide)

/-- C10 counterexample: the claim says the change preview never raises an
error to its caller, but the initial stack-status probe happens *outside*
the preview's `try`/`catch`: a provider error from `DescribeStacks` whose
message does not contain "does not exist" propagates out of
`previewStackChanges` (and would abort that stack's deployment). -/
theorem C10_preview_probe_error_escapes :
    previewStackChanges
      { describeResp := .err "User is not authorized to perform DescribeStacks",
        createCS := .ok (), waitCS := .ok (), describeCS := .ok 0,
        deleteCS := .ok (), deleteCSRetry := .ok () } =
      (.error "User is not authorized to perform DescribeStacks", []) := rfl

/-- C10 (amended): once the initial status probe has answered, the
preview never raises: every provider error during change-set creation,
waiting, description, or cleanup is swallowed (logged), the best-effort
cleanup's own failure never changes the outcome from `.ok`, and for a
stack that does not exist the preview is skipped entirely with no
change-set call performed. -/
theorem C10_preview_never_throws_after_probe (env : PreviewEnv)
    (st : StackStatus) (h : getStackStatus env.describeResp = .ok st) :
    (∃ out, (previewStackChanges env).1 = .ok out) ∧
    (st.exists_ = false → previewStackChanges env = (.ok .willCreate, [])) := by
  have hskip : st.exists_ = false →
      previewStackChanges env = (.ok .willCreate, []) := by
    intro hex
    unfold previewStackChanges
    rw [h]
    simp [hex]
  refine ⟨?_, hskip⟩
  by_cases hex : st.exists_ = false
  · exact ⟨.willCreate, by rw [hskip hex]⟩
  · have hcatch : ∀ m calls, ∃ out, (previewCatch env m calls).1 = .ok out := by
      intro m calls
      unfold previewCatch
      by_cases hc : (strIncludes m "No updates are to be performed" ||
          strIncludes m "didn't contain changes") = true
      · exact ⟨.noChanges, by rw [if_pos hc]⟩
      · exact ⟨_, by rw [if_neg hc]⟩
    unfold previewStackChanges
    rw [h]
    simp only [if_neg hex]
    cases env.createCS with
    | error m => exact hcatch m _
    | ok u =>
      cases env.waitCS with
      | error m => exact hcatch m _
      | ok v =>
        cases env.describeCS with
        | error m => exact hcatch m _
        | ok changes =>
          cases env.deleteCS with
          | error m => exact hcatch m _
          | ok w => exact ⟨.previewed changes, rfl⟩

/-- Witness for the amended C10: a failing change-set creation is only
logged, and a nonexistent stack skips preview with no change-set call. -/
theorem C10_preview_never_throws_after_probe_witness :
    (∃ out, (previewStackChanges
      { describeResp := .ok [⟨some "CREATE_COMPLETE", some "id"⟩],
        createCS := .error "AccessDenied", waitCS := .ok (),
        describeCS := .ok 0, deleteCS := .ok (),
        deleteCSRetry := .error "AccessDenied" }).1 = .ok out) ∧
    previewStackChanges
      { describeResp := .ok [],
        createCS := .ok (), waitCS := .ok (), describeCS := .ok 0,
        deleteCS := .ok (), deleteCSRetry := .ok () } =
      (.ok .willCreate, []) := by
  refine ⟨(C10_preview_never_throws_after_probe
    { describeResp := .ok [⟨some "CREATE_COMPLETE", some "id"⟩],
      createCS := .error "AccessDenied", waitCS := .ok (),
      describeCS := .ok 0, deleteCS := .ok (),
      deleteCSRetry := .error "AccessDenied" }
    ⟨true, some "CREATE_COMPLETE", some "id"⟩ rfl).1, ?_⟩
  exact (C10_preview_never_throws_after_probe
    { describeResp := .ok [],
      createCS := .ok (), waitCS := .ok (), describeCS := .ok 0,
      deleteCS := .ok (), deleteCSRetry := .ok () }
    ⟨false, none, none⟩ rfl).2 rfl

/-! ### Skipping non-stopping poll iterations

A poll iteration neither times out nor stops when its elapsed time is
within the ceiling and its stack status is present and non-terminal; the
loop then just advances its tracking state and progress record.
`skipStep` is that advancement, used to relate the loop to a fold over
its leading non-stopping iterations.
-/

def displayStatusOf (currentStatus : String) : String :=
  if strIncludes currentStatus "ROLLBACK" then "rollback"
  else if strIncludes currentStatus "FAILED" then "failed"
  else "in_progress"

def skipStep (stackName : String) (operationStartTime : Nat)
    (sr : TrackState × StackProgressState) (q : WaitPoll) :
    TrackState × StackProgressState :=
  let st' := processPoll stackName operationStartTime sr.1 q.events
  (st',
    match q.stack with
    | some s => updateStackProg sr.2 st'.completedResources.length
        (displayStatusOf s) s st'.latestResourceId
    | none => sr.2)

/-- A poll list is "non-stopping" when every iteration stays within the
time ceiling and observes a present, non-terminal stack status. -/
def NonStopping (maxWaitTime : Nat) (pre : List WaitPoll) : Prop :=
  ∀ q ∈ pre, q.elapsedMs ≤ maxWaitTime * 1000 ∧
    ∃ s, q.stack = some s ∧ TERMINAL_STATES.contains s = false

theorem waitFor_skip_nonstopping (stackName : String) (maxWaitTime
    operationStartTime : Nat) (pre : List WaitPoll) :
    ∀ (st : TrackState) (r : StackProgressState) (polls : List WaitPoll),
    NonStopping maxWaitTime pre →
    waitForStackWithProgress stackName maxWaitTime operationStartTime st r
        (pre ++ polls) =
      waitForStackWithProgress stackName maxWaitTime operationStartTime
        (pre.foldl (skipStep stackName operationStartTime) (st, r)).1
        (pre.foldl (skipStep stackName operationStartTime) (st, r)).2
        polls := by
  induction pre with
  | nil => intro st r polls _; rfl
  | cons q pre' ih =>
    intro st r polls hpre
    obtain ⟨hq, s, hqs, hterm⟩ := hpre q (List.mem_cons_self q pre')
    have hnotlt : ¬(maxWaitTime * 1000 < q.elapsedMs) := by omega
    have hstep : waitForStackWithProgress stackName maxWaitTime
        operationStartTime st r ((q :: pre') ++ polls) =
        waitForStackWithProgress stackName maxWaitTime operationStartTime
          (processPoll stackName operationStartTime st q.events)
          (updateStackProg r (processPoll stackName operationStartTime st
              q.events).completedResources.length
            (displayStatusOf s) s
            (processPoll stackName operationStartTime st q.events).latestResourceId)
          (pre' ++ polls) := by
      show waitForStackWithProgress stackName maxWaitTime operationStartTime
        st r (q :: (pre' ++ polls)) = _
      simp only [waitForStackWithProgress]
      rw [if_neg hnotlt]
      simp only [hqs, hterm, Bool.false_eq_true, if_false, displayStatusOf]
    rw [hstep]
    have hfold : (q :: pre').foldl (skipStep stackName operationStartTime)
        (st, r) = pre'.foldl (skipStep stackName operationStartTime)
          (skipStep stackName operationStartTime (st, r) q) := rfl
    have hskip : skipStep stackName operationStartTime (st, r) q =
        (processPoll stackName operationStartTime st q.events,
          updateStackProg r (processPoll stackName operationStartTime st
              q.events).completedResources.length
            (displayStatusOf s) s
            (processPoll stackName operationStartTime st q.events).latestResourceId) := by
      unfold skipStep
      rw [hqs]
    rw [hfold, hskip]
    exact ih _ _ polls (fun x hx => hpre x (List.mem_cons_of_mem q hx))

/-- The tracking-state component of the skip fold is the plain
event-processing fold. -/
theorem skipStep_foldl_fst (stackName : String) (operationStartTime : Nat)
    (pre : List WaitPoll) :
    ∀ (st : TrackState) (r : StackProgressState),
    (pre.foldl (skipStep stackName operationStartTime) (st, r)).1 =
      pre.foldl (fun s q => processPoll stackName operationStartTime s q.events)
        st := by
  induction pre with
  | nil => intro st r; rfl
  | cons q pre' ih =>
    intro st r
    show (pre'.foldl (skipStep stackName operationStartTime)
      (skipStep stackName operationStartTime (st, r) q)).1 = _
    rcases hsk : skipStep stackName operationStartTime (st, r) q with ⟨st1, r1⟩
    have h1 : st1 = processPoll stackName operationStartTime st q.events := by
      have : (skipStep stackName operationStartTime (st, r) q).1 =
          processPoll stackName operationStartTime st q.events := by
        unfold skipStep
        rfl
      rw [hsk] at this
      exact this
    rw [ih st1 r1, h1]
    rfl

/-! ### Classifying the two failure message families -/

theorem charsLead_self_append (p rest : List Char) :
    charsLead p (p ++ rest) = true := by
  induction p with
  | nil => rfl
  | cons a as ih => simp [charsLead, ih]

theorem charsWithin_of_lead {p l : List Char} (h : charsLead p l = true) :
    charsWithin p l = true := by
  cases l with
  | nil =>
    cases p with
    | nil => rfl
    | cons a as => simp [charsLead] at h
  | cons b bs => simp [charsWithin, h]

/-- A string that starts with `p` includes `p`. -/
theorem strIncludes_self_append (p rest : String) :
    strIncludes (p ++ rest) p = true := by
  unfold strIncludes
  apply charsWithin_of_lead
  rw [show (p ++ rest).data = p.data ++ rest.data from rfl]
  exact charsLead_self_append p.data rest.data

/-- Every timeout message contains the marker
`Stack operation timed out after`, for any ceiling value. -/
theorem timeoutMessage_marker (maxWaitTime : Nat) :
    strIncludes (timeoutMessage maxWaitTime)
      "Stack operation timed out after" = true := by
  unfold timeoutMessage
  unfold strIncludes
  apply charsWithin_of_lead
  rw [show ("Stack operation timed out after " ++ toString maxWaitTime ++
      " seconds").data = "Stack operation timed out after".data ++
      (' ' :: ((toString maxWaitTime).data ++ " seconds".data)) from by
    rw [show ("Stack operation timed out after " ++ toString maxWaitTime ++
        " seconds").data = "Stack operation timed out after ".data ++
        (toString maxWaitTime).data ++ " seconds".data from rfl]
    rw [show "Stack operation timed out after ".data =
      "Stack operation timed out after".data ++ [' '] from by decide]
    simp]
  exact charsLead_self_append _ _

/-- C9 counterexample: the claim says a timeout produces an error of a
kind distinct from a provider-reported terminal failure.  In the code
both are thrown as the same kind: at the concrete inputs below, one run
times out (first poll past the 600 s default ceiling) and the other hits
the terminal failure `ROLLBACK_COMPLETE`, and `deployStack` surfaces both
as a `CloudFormationError` with the very same `name` — the classes differ
only in their message text. -/
theorem C9_timeout_error_same_kind :
    (deployStack "S" "111111111111"
      { describeResp := .ok [], deleteSend := .ok (), deleteWait := .ok (),
        createSend := .ok (), createStartTime := 0,
        createPolls := [⟨600001, some "CREATE_IN_PROGRESS", []⟩],
        updateSend := .ok (), updateStartTime := 0, updatePolls := [] }
      ⟨"pending", 0, 1, none, none, none⟩).1 =
      .error (mkCloudFormationError "S" "111111111111"
        (timeoutMessage 600)) ∧
    (deployStack "S" "111111111111"
      { describeResp := .ok [], deleteSend := .ok (), deleteWait := .ok (),
        createSend := .ok (), createStartTime := 0,
        createPolls := [⟨0, some "ROLLBACK_COMPLETE", []⟩],
        updateSend := .ok (), updateStartTime := 0, updatePolls := [] }
      ⟨"pending", 0, 1, none, none, none⟩).1 =
      .error (mkCloudFormationError "S" "111111111111"
        (operationFailedMessage "ROLLBACK_COMPLETE")) ∧
    (mkCloudFormationError "S" "111111111111" (timeoutMessage 600)).name =
      (mkCloudFormationError "S" "111111111111"
        (operationFailedMessage "ROLLBACK_COMPLETE")).name := by
  refine ⟨?_, ?_, rfl⟩ <;> rfl

/-- C9 (amended): exceeding the ceiling with no terminal state fails with
the timeout error message `Stack operation timed out after N seconds`;
both failure classes are thrown with the same error kind, but the timeout
message always contains the marker `Stack operation timed out after`,
which no provider-terminal-failure message for any terminal status
contains, so callers can distinguish the two classes by message text. -/
theorem C9_timeout_distinct_message (stackName : String)
    (maxWaitTime operationStartTime : Nat) (st : TrackState)
    (r : StackProgressState) (pre : List WaitPoll) (p : WaitPoll)
    (rest : List WaitPoll) (hpre : NonStopping maxWaitTime pre)
    (hp : maxWaitTime * 1000 < p.elapsedMs) :
    (waitForStackWithProgress stackName maxWaitTime operationStartTime st r
        (pre ++ p :: rest)).1 = .thrown (timeoutMessage maxWaitTime) ∧
    strIncludes (timeoutMessage maxWaitTime)
      "Stack operation timed out after" = true ∧
    (∀ s ∈ TERMINAL_STATES, strIncludes (operationFailedMessage s)
      "Stack operation timed out after" = false) := by
  refine ⟨?_, timeoutMessage_marker maxWaitTime, by decide⟩
  rw [waitFor_skip_nonstopping stackName maxWaitTime operationStartTime pre
    st r (p :: rest) hpre]
  simp only [waitForStackWithProgress]
  rw [if_pos hp]

/-- Witness for the amended C9: a single in-progress poll followed by a
poll 600 001 ms in. -/
theorem C9_timeout_distinct_message_witness :
    (waitForStackWithProgress "S" 600 0 TrackState.initial
        ⟨"pending", 0, 1, none, none, none⟩
        ([⟨2000, some "CREATE_IN_PROGRESS", []⟩] ++
          ⟨600001, some "CREATE_IN_PROGRESS", []⟩ :: [])).1 =
      .thrown (timeoutMessage 600) := by
  exact (C9_timeout_distinct_message "S" 600 0 TrackState.initial
    ⟨"pending", 0, 1, none, none, none⟩
    [⟨2000, some "CREATE_IN_PROGRESS", []⟩]
    ⟨600001, some "CREATE_IN_PROGRESS", []⟩ []
    (by
      intro q hq
      simp only [List.mem_singleton] at hq
      subst hq
      exact ⟨by decide, "CREATE_IN_PROGRESS", rfl, by decide⟩)
    (by decide)).1

/-! ### Terminal-state classification (C4) -/

/-- One loop iteration that observes a terminal status within the time
ceiling stops: success states return, all others report and throw. -/
theorem waitFor_terminal_step (stackName : String)
    (maxWaitTime operationStartTime : Nat) (st : TrackState)
    (r : StackProgressState) (t : String) (elapsed : Nat)
    (ev : List StackEvent) (rest : List WaitPoll)
    (he : elapsed ≤ maxWaitTime * 1000)
    (hterm : TERMINAL_STATES.contains t = true) :
    waitForStackWithProgress stackName maxWaitTime operationStartTime st r
        (⟨elapsed, some t, ev⟩ :: rest) =
      (if SUCCESS_STATES.contains t = true then
         (.success,
           completeStackProg
             (updateStackProg r (processPoll stackName operationStartTime st
                 ev).completedResources.length
               (displayStatusOf t) t
               (processPoll stackName operationStartTime st
                 ev).latestResourceId)
             true none)
       else
         (.thrown (operationFailedMessage t),
           completeStackProg
             (completeStackProg
               (updateStackProg r (processPoll stackName operationStartTime st
                   ev).completedResources.length
                 (displayStatusOf t) t
                 (processPoll stackName operationStartTime st
                   ev).latestResourceId)
               false
               (some (if (processPoll stackName operationStartTime st
                   ev).latestFailureReason ≠ "" then
                 (processPoll stackName operationStartTime st
                   ev).latestFailureReason else t)))
             false none)) := by
  have hnotlt : ¬(maxWaitTime * 1000 < elapsed) := by omega
  simp only [waitForStackWithProgress]
  rw [if_neg hnotlt]
  simp only [hterm, if_true, displayStatusOf]
  by_cases hsucc : SUCCESS_STATES.contains t = true
  · simp only [hsucc, if_true]
  · simp only [Bool.not_eq_true] at hsucc
    simp only [hsucc, Bool.false_eq_true, if_false]

/-- `latestFailureReason` after one event: set to `logicalId: reason` for
a non-stack `FAILED` resource event carrying a reason, else unchanged. -/
theorem processEvent_latestFailureReason (stackName : String)
    (st : TrackState) (e : StackEvent) :
    (processEvent stackName st e).latestFailureReason =
      if e.logicalResourceId ≠ "" ∧ e.logicalResourceId ≠ stackName ∧
          strIncludes e.resourceStatus "FAILED" = true ∧
          e.resourceStatusReason ≠ "" then
        e.logicalResourceId ++ ": " ++ e.resourceStatusReason
      else st.latestFailureReason := by
  unfold processEvent
  by_cases h1 : e.logicalResourceId ≠ "" ∧ e.logicalResourceId ≠ stackName
  · simp only [if_pos h1]
    by_cases h2 : strIncludes e.resourceStatus "FAILED" = true ∧
        e.resourceStatusReason ≠ ""
    · rw [if_pos h2, if_pos ⟨h1.1, h1.2, h2.1, h2.2⟩]
    · rw [if_neg h2, if_neg (by tauto)]
  · simp only [if_neg h1, if_neg (by tauto : ¬(e.logicalResourceId ≠ "" ∧
      e.logicalResourceId ≠ stackName ∧
      strIncludes e.resourceStatus "FAILED" = true ∧
      e.resourceStatusReason ≠ ""))]

/-- The `latestFailureReason` as threaded up to and including the
terminal poll: all leading polls' events processed in order, then the
terminal poll's events. -/
def capturedReasonAfter (stackName : String) (operationStartTime : Nat)
    (st0 : TrackState) (pre : List WaitPoll) (ev : List StackEvent) : String :=
  (processPoll stackName operationStartTime
    (pre.foldl (fun s q => processPoll stackName operationStartTime s q.events)
      st0) ev).latestFailureReason

/-- C4: when the poll loop reaches a terminal stack status, a success
state (created/updated) resolves the operation as success; every other
terminal state fails it, recording as the stack's failure reason the most
recently captured per-resource failure reason when one was captured, and
otherwise the raw terminal status string.  The final conjunct
characterises the capture: processing an event batch leaves, as
`latestFailureReason`, the text `logicalId: reason` of the last processed
`FAILED` resource event (other than the stack itself) that carries a
reason, or the starting value when there is none. -/
theorem C4_terminal_state_classification (stackName : String)
    (maxWaitTime operationStartTime : Nat) (st0 : TrackState)
    (r0 : StackProgressState) (pre : List WaitPoll) (t : String)
    (elapsed : Nat) (ev : List StackEvent) (rest : List WaitPoll)
    (hpre : NonStopping maxWaitTime pre)
    (he : elapsed ≤ maxWaitTime * 1000)
    (hterm : TERMINAL_STATES.contains t = true) :
    (SUCCESS_STATES.contains t = true →
      (waitForStackWithProgress stackName maxWaitTime operationStartTime st0
          r0 (pre ++ ⟨elapsed, some t, ev⟩ :: rest)).1 = .success ∧
      (waitForStackWithProgress stackName maxWaitTime operationStartTime st0
          r0 (pre ++ ⟨elapsed, some t, ev⟩ :: rest)).2.status = "complete") ∧
    (SUCCESS_STATES.contains t = false →
      (waitForStackWithProgress stackName maxWaitTime operationStartTime st0
          r0 (pre ++ ⟨elapsed, some t, ev⟩ :: rest)).1 =
        .thrown (operationFailedMessage t) ∧
      (waitForStackWithProgress stackName maxWaitTime operationStartTime st0
          r0 (pre ++ ⟨elapsed, some t, ev⟩ :: rest)).2.status = "failed" ∧
      (waitForStackWithProgress stackName maxWaitTime operationStartTime st0
          r0 (pre ++ ⟨elapsed, some t, ev⟩ :: rest)).2.failureReason =
        some (if capturedReasonAfter stackName operationStartTime st0 pre ev
            = "" then t
          else capturedReasonAfter stackName operationStartTime st0 pre ev)) ∧
    (∀ (evs : List StackEvent) (st1 : TrackState),
      (evs.foldl (processEvent stackName) st1).latestFailureReason =
        evs.foldl (fun acc e =>
          if e.logicalResourceId ≠ "" ∧ e.logicalResourceId ≠ stackName ∧
              strIncludes e.resourceStatus "FAILED" = true ∧
              e.resourceStatusReason ≠ "" then
            e.logicalResourceId ++ ": " ++ e.resourceStatusReason
          else acc) st1.latestFailureReason) := by
  have hne : t ≠ "" := by
    intro hcontra
    subst hcontra
    exact absurd hterm (by decide)
  have hrw := waitFor_skip_nonstopping stackName maxWaitTime
    operationStartTime pre st0 r0 (⟨elapsed, some t, ev⟩ :: rest) hpre
  have hfst := skipStep_foldl_fst stackName operationStartTime pre st0 r0
  set stF := (pre.foldl (skipStep stackName operationStartTime) (st0, r0)).1
    with hstF
  set rF := (pre.foldl (skipStep stackName operationStartTime) (st0, r0)).2
    with hrF
  have hstep := waitFor_terminal_step stackName maxWaitTime
    operationStartTime stF rF t elapsed ev rest he hterm
  have hcap : (processPoll stackName operationStartTime stF
        ev).latestFailureReason =
      capturedReasonAfter stackName operationStartTime st0 pre ev := by
    unfold capturedReasonAfter
    rw [hfst]
  refine ⟨fun hsucc => ?_, fun hfail => ?_, ?_⟩
  · rw [hrw, hstep]
    simp only [hsucc, if_true]
    exact ⟨by trivial, by trivial⟩
  · rw [hrw, hstep]
    simp only [hfail, Bool.false_eq_true, if_false]
    refine ⟨by trivial, by trivial, ?_⟩
    rw [← hcap]
    by_cases hc : (processPoll stackName operationStartTime stF
        ev).latestFailureReason = ""
    · simp [completeStackProg, hc, hne]
    · simp [completeStackProg, hc]
  · intro evs st1
    induction evs generalizing st1 with
    | nil => rfl
    | cons e es ih =>
      simp only [List.foldl_cons]
      rw [ih]
      by_cases hcond : e.logicalResourceId ≠ "" ∧
          e.logicalResourceId ≠ stackName ∧
          strIncludes e.resourceStatus "FAILED" = true ∧
          e.resourceStatusReason ≠ ""
      · rw [if_pos hcond,
          processEvent_latestFailureReason stackName st1 e, if_pos hcond]
      · rw [if_neg hcond,
          processEvent_latestFailureReason stackName st1 e, if_neg hcond]

/-- Witness for C4: the spec's two example traces — two in-progress polls
then `CREATE_COMPLETE` resolves success; two in-progress polls then
`ROLLBACK_COMPLETE` with no captured resource failure fails with
`ROLLBACK_COMPLETE` as the reason. -/
theorem C4_terminal_state_classification_witness :
    (waitForStackWithProgress "S" 600 0 TrackState.initial
        ⟨"pending", 0, 1, none, none, none⟩
        ([⟨2000, some "CREATE_IN_PROGRESS", []⟩,
          ⟨4000, some "CREATE_IN_PROGRESS", []⟩] ++
          (⟨6000, some "CREATE_COMPLETE", []⟩ : WaitPoll) :: [])).1 =
      .success ∧
    (waitForStackWithProgress "S" 600 0 TrackState.initial
        ⟨"pending", 0, 1, none, none, none⟩
        ([⟨2000, some "CREATE_IN_PROGRESS", []⟩,
          ⟨4000, some "CREATE_IN_PROGRESS", []⟩] ++
          (⟨6000, some "ROLLBACK_COMPLETE", []⟩ : WaitPoll) :: [])).2.failureReason =
      some "ROLLBACK_COMPLETE" := by
  have hpre : NonStopping 600
      [⟨2000, some "CREATE_IN_PROGRESS", []⟩,
       ⟨4000, some "CREATE_IN_PROGRESS", []⟩] := by
    intro q hq
    simp only [List.mem_cons, List.not_mem_nil, or_false] at hq
    rcases hq with rfl | rfl
    · exact ⟨by decide, "CREATE_IN_PROGRESS", rfl, by decide⟩
    · exact ⟨by decide, "CREATE_IN_PROGRESS", rfl, by decide⟩
  constructor
  · exact ((C4_terminal_state_classification "S" 600 0 TrackState.initial
      ⟨"pending", 0, 1, none, none, none⟩
      [⟨2000, some "CREATE_IN_PROGRESS", []⟩,
       ⟨4000, some "CREATE_IN_PROGRESS", []⟩]
      "CREATE_COMPLETE" 6000 [] [] hpre (by decide) (by decide)).1
      (by decide)).1
  · have h := ((C4_terminal_state_classification "S" 600 0 TrackState.initial
      ⟨"pending", 0, 1, none, none, none⟩
      [⟨2000, some "CREATE_IN_PROGRESS", []⟩,
       ⟨4000, some "CREATE_IN_PROGRESS", []⟩]
      "ROLLBACK_COMPLETE" 6000 [] [] hpre (by decide) (by decide)).2.1
      (by decide)).2.2
    rw [h]
    rfl

/-! ## The deployment plan builder (`src/commands/bootstrap.ts`)

`buildDeploymentPlan` derives the five stack-descriptor groups from the
parsed pipelines and the auth context.  Collaborators that the spec
declares external are parameters: the naming helpers (`Naming`), the
per-pipeline artifact parse results and their pipeline-stack filtering,
the import-source-account extraction, and the CREATE/UPDATE probe
(`determineStackAction`, an oracle keyed by stack name, target account —
which determines the credentials used — and region; the probe's internal
role-assumption failures are swallowed and a probing failure already
degrades to CREATE inside the oracle's value).
-/

inductive StackAction where
  | CREATE
  | UPDATE
deriving DecidableEq, Repr

structure PipelineStage where
  name : String
  account_id : String
  region : String
deriving DecidableEq, Repr

/-- The fields of a `ParsedPipeline` that the plan builder reads; steps
and additional policies are opaque payload carried through. -/
structure ParsedPipeline where
  slug : String
  targetAccountIds : List String
  stages : List PipelineStage
  steps : List String
  additionalPolicies : List String
deriving DecidableEq, Repr

/-- A pipeline's parsed artifacts (docker / bundle), opaque payload. -/
structure ParsedArtifacts where
  docker : List String
  bundle : List String
deriving DecidableEq, Repr

structure AuthData where
  orgSlug : String
  cicdAccountId : String
  cicdRegion : String
deriving DecidableEq, Repr

/-- The external naming helpers (`src/naming`), out of scope per the
spec; the plan builder only requires them as functions. -/
structure Naming where
  orgStackName : String → String
  pipelineStackName : String → String
  stageStackName : String → String → String
  accountStackName : String
  importStackName : String → String

structure OrgStackDeployment where
  stackName : String
  accountId : String
  region : String
  action : StackAction
  orgSlug : String
  targetAccountIds : List String
deriving DecidableEq, Repr

structure PipelineStackDeployment where
  stackName : String
  accountId : String
  region : String
  action : StackAction
  pipelineSlug : String
  dockerArtifacts : List String
  bundleArtifacts : List String
deriving DecidableEq, Repr

structure AccountStackDeployment where
  stackName : String
  accountId : String
  region : String
  action : StackAction
deriving DecidableEq, Repr

structure StageStackDeployment where
  stackName : String
  accountId : String
  region : String
  action : StackAction
  pipelineSlug : String
  stageName : String
  orgSlug : String
  steps : List String
  additionalPolicies : List String
  dockerArtifacts : List String
  bundleArtifacts : List String
deriving DecidableEq, Repr

structure ImportStackDeployment where
  stackName : String
  accountId : String
  region : String
  action : StackAction
  pipelineSlug : String
  orgSlug : String
deriving DecidableEq, Repr

structure DeploymentPlan where
  orgSlug : String
  cicdAccountId : String
  cicdRegion : String
  orgStack : OrgStackDeployment
  pipelineStacks : List PipelineStackDeployment
  accountStacks : List AccountStackDeployment
  stageStacks : List StageStackDeployment
  importStacks : List ImportStackDeployment
deriving DecidableEq, Repr

/-- `importSourceAccountsByPipeline`: the map from pipeline slug to its
import-source account ids, with an entry only when the list is non-empty
(`if (importSources.length > 0)`), in pipeline order. -/
def importSourcesByPipeline (pipelines : List ParsedPipeline)
    (artifacts : String → ParsedArtifacts)
    (importSrcs : ParsedArtifacts → List String) :
    List (String × List String) :=
  pipelines.filterMap (fun p =>
    let srcs := importSrcs (artifacts p.slug)
    if srcs.isEmpty then none else some (p.slug, srcs))

/-- `buildDeploymentPlan` (`src/commands/bootstrap.ts`).  The account
list (`accountsWithStacks`) starts with the CI/CD account, then adds
every stage account and every import-source account exactly once, each
addition producing one Account-stack descriptor in insertion order. -/
def buildDeploymentPlan (naming : Naming) (pipelines : List ParsedPipeline)
    (artifacts : String → ParsedArtifacts)
    (filterArts : ParsedArtifacts → ParsedArtifacts)
    (importSrcs : ParsedArtifacts → List String)
    (authData : AuthData)
    (act : String → String → String → StackAction) : DeploymentPlan :=
  let allTargetAccountIds :=
    pipelines.foldl (fun acc p => setAddAll acc p.targetAccountIds) []
  let orgStackName := naming.orgStackName authData.orgSlug
  let orgStack : OrgStackDeployment :=
    { stackName := orgStackName
      accountId := authData.cicdAccountId
      region := authData.cicdRegion
      action := act orgStackName authData.cicdAccountId authData.cicdRegion
      orgSlug := authData.orgSlug
      targetAccountIds := allTargetAccountIds }
  let pipelineStacks : List PipelineStackDeployment :=
    pipelines.map (fun p =>
      let filteredArtifacts := filterArts (artifacts p.slug)
      let stackName := naming.pipelineStackName p.slug
      { stackName := stackName
        accountId := authData.cicdAccountId
        region := authData.cicdRegion
        action := act stackName authData.cicdAccountId authData.cicdRegion
        pipelineSlug := p.slug
        dockerArtifacts := filteredArtifacts.docker
        bundleArtifacts := filteredArtifacts.bundle })
  let bySlug := importSourcesByPipeline pipelines artifacts importSrcs
  let stageAccountIds :=
    pipelines.flatMap (fun p => p.stages.map (·.account_id))
  let importAccountIds := bySlug.flatMap (·.2)
  let accountStacks : List AccountStackDeployment :=
    (setAddAll [authData.cicdAccountId]
        (stageAccountIds ++ importAccountIds)).map (fun accountId =>
      { stackName := naming.accountStackName
        accountId := accountId
        region := authData.cicdRegion
        action := act naming.accountStackName accountId authData.cicdRegion })
  let stageStacks : List StageStackDeployment :=
    pipelines.flatMap (fun p =>
      let arts := artifacts p.slug
      p.stages.map (fun stage =>
        let stackName := naming.stageStackName p.slug stage.name
        { stackName := stackName
          accountId := stage.account_id
          region := stage.region
          action := act stackName stage.account_id stage.region
          pipelineSlug := p.slug
          stageName := stage.name
          orgSlug := authData.orgSlug
          steps := p.steps
          additionalPolicies := p.additionalPolicies
          dockerArtifacts := arts.docker
          bundleArtifacts := arts.bundle }))
  let importStacks : List ImportStackDeployment :=
    bySlug.flatMap (fun e =>
      let importStackName := naming.importStackName e.1
      e.2.map (fun sourceAccountId =>
        { stackName := importStackName
          accountId := sourceAccountId
          region := authData.cicdRegion
          action := act importStackName sourceAccountId authData.cicdRegion
          pipelineSlug := e.1
          orgSlug := authData.orgSlug }))
  { orgSlug := authData.orgSlug
    cicdAccountId := authData.cicdAccountId
    cicdRegion := authData.cicdRegion
    orgStack := orgStack
    pipelineStacks := pipelineStacks
    accountStacks := accountStacks
    stageStacks := stageStacks
    importStacks := importStacks }

/-! ### C2: account coverage and CI/CD-first invariants of the plan -/

theorem setAdd_ne_nil {acc : List String} (h : acc ≠ []) (x : String) :
    setAdd acc x ≠ [] := by
  unfold setAdd
  by_cases hx : x ∈ acc
  · simpa [hx]
  · simp [hx]

theorem setAdd_head? {acc : List String} (h : acc ≠ []) (x : String) :
    (setAdd acc x).head? = acc.head? := by
  unfold setAdd
  by_cases hx : x ∈ acc
  · simp [hx]
  · simp only [if_neg hx]
    cases acc with
    | nil => exact absurd rfl h
    | cons y ys => rfl

theorem setAddAll_ne_nil {acc : List String} (h : acc ≠ [])
    (xs : List String) : setAddAll acc xs ≠ [] := by
  induction xs generalizing acc with
  | nil => simpa [setAddAll_nil]
  | cons a as ih =>
    rw [setAddAll_cons]
    exact ih (setAdd_ne_nil h a)

theorem setAddAll_head? {acc : List String} (h : acc ≠ [])
    (xs : List String) : (setAddAll acc xs).head? = acc.head? := by
  induction xs generalizing acc with
  | nil => simp [setAddAll_nil]
  | cons a as ih =>
    rw [setAddAll_cons, ih (setAdd_ne_nil h a), setAdd_head? h a]

theorem buildDeploymentPlan_accountStacks (naming : Naming)
    (pipelines : List ParsedPipeline) (artifacts : String → ParsedArtifacts)
    (filterArts : ParsedArtifacts → ParsedArtifacts)
    (importSrcs : ParsedArtifacts → List String) (authData : AuthData)
    (act : String → String → String → StackAction) :
    (buildDeploymentPlan naming pipelines artifacts filterArts importSrcs
        authData act).accountStacks =
      (setAddAll [authData.cicdAccountId]
          (pipelines.flatMap (fun p => p.stages.map (·.account_id)) ++
            (importSourcesByPipeline pipelines artifacts
              importSrcs).flatMap (·.2))).map (fun accountId =>
        { stackName := naming.accountStackName
          accountId := accountId
          region := authData.cicdRegion
          action := act naming.accountStackName accountId
            authData.cicdRegion }) := rfl

theorem buildDeploymentPlan_stageStacks (naming : Naming)
    (pipelines : List ParsedPipeline) (artifacts : String → ParsedArtifacts)
    (filterArts : ParsedArtifacts → ParsedArtifacts)
    (importSrcs : ParsedArtifacts → List String) (authData : AuthData)
    (act : String → String → String → StackAction) :
    (buildDeploymentPlan naming pipelines artifacts filterArts importSrcs
        authData act).stageStacks =
      pipelines.flatMap (fun p =>
        p.stages.map (fun stage =>
          { stackName := naming.stageStackName p.slug stage.name
            accountId := stage.account_id
            region := stage.region
            action := act (naming.stageStackName p.slug stage.name)
              stage.account_id stage.region
            pipelineSlug := p.slug
            stageName := stage.name
            orgSlug := authData.orgSlug
            steps := p.steps
            additionalPolicies := p.additionalPolicies
            dockerArtifacts := (artifacts p.slug).docker
            bundleArtifacts := (artifacts p.slug).bundle })) := rfl

theorem buildDeploymentPlan_pipelineStacks (naming : Naming)
    (pipelines : List ParsedPipeline) (artifacts : String → ParsedArtifacts)
    (filterArts : ParsedArtifacts → ParsedArtifacts)
    (importSrcs : ParsedArtifacts → List String) (authData : AuthData)
    (act : String → String → String → StackAction) :
    (buildDeploymentPlan naming pipelines artifacts filterArts importSrcs
        authData act).pipelineStacks =
      pipelines.map (fun p =>
        { stackName := naming.pipelineStackName p.slug
          accountId := authData.cicdAccountId
          region := authData.cicdRegion
          action := act (naming.pipelineStackName p.slug)
            authData.cicdAccountId authData.cicdRegion
          pipelineSlug := p.slug
          dockerArtifacts := (filterArts (artifacts p.slug)).docker
          bundleArtifacts := (filterArts (artifacts p.slug)).bundle }) := rfl

/-- C2: in every plan the builder produces, each Stage-stack descriptor
and each Pipeline-stack descriptor has an Account-stack descriptor with
the same `accountId` in the same plan, and the Account-stack list's first
element is the CI/CD account's descriptor. -/
theorem C2_plan_account_coverage (naming : Naming)
    (pipelines : List ParsedPipeline) (artifacts : String → ParsedArtifacts)
    (filterArts : ParsedArtifacts → ParsedArtifacts)
    (importSrcs : ParsedArtifacts → List String) (authData : AuthData)
    (act : String → String → String → StackAction) :
    (∀ s ∈ (buildDeploymentPlan naming pipelines artifacts filterArts
        importSrcs authData act).stageStacks,
      ∃ a ∈ (buildDeploymentPlan naming pipelines artifacts filterArts
        importSrcs authData act).accountStacks, a.accountId = s.accountId) ∧
    (∀ p ∈ (buildDeploymentPlan naming pipelines artifacts filterArts
        importSrcs authData act).pipelineStacks,
      ∃ a ∈ (buildDeploymentPlan naming pipelines artifacts filterArts
        importSrcs authData act).accountStacks, a.accountId = p.accountId) ∧
    (buildDeploymentPlan naming pipelines artifacts filterArts importSrcs
        authData act).accountStacks.head? =
      some { stackName := naming.accountStackName
             accountId := authData.cicdAccountId
             region := authData.cicdRegion
             action := act naming.accountStackName authData.cicdAccountId
               authData.cicdRegion } := by
  refine ⟨?_, ?_, ?_⟩
  · intro s hs
    rw [buildDeploymentPlan_stageStacks] at hs
    simp only [List.mem_flatMap, List.mem_map] at hs
    obtain ⟨p, hp, stage, hstage, rfl⟩ := hs
    refine ⟨{ stackName := naming.accountStackName
              accountId := stage.account_id
              region := authData.cicdRegion
              action := act naming.accountStackName stage.account_id
                authData.cicdRegion }, ?_, rfl⟩
    rw [buildDeploymentPlan_accountStacks]
    simp only [List.mem_map]
    refine ⟨stage.account_id, ?_, rfl⟩
    rw [mem_setAddAll]
    right
    rw [List.mem_append]
    left
    simp only [List.mem_flatMap, List.mem_map]
    exact ⟨p, hp, stage, hstage, rfl⟩
  · intro q hq
    rw [buildDeploymentPlan_pipelineStacks] at hq
    simp only [List.mem_map] at hq
    obtain ⟨p, hp, rfl⟩ := hq
    refine ⟨{ stackName := naming.accountStackName
              accountId := authData.cicdAccountId
              region := authData.cicdRegion
              action := act naming.accountStackName authData.cicdAccountId
                authData.cicdRegion }, ?_, rfl⟩
    rw [buildDeploymentPlan_accountStacks]
    simp only [List.mem_map]
    refine ⟨authData.cicdAccountId, ?_, rfl⟩
    rw [mem_setAddAll]
    left
    exact List.mem_singleton_self _
  · rw [buildDeploymentPlan_accountStacks, List.head?_map,
      setAddAll_head? (by simp) _]
    rfl

/-- Witness for C2 at a concrete two-account input. -/
theorem C2_plan_account_coverage_witness :
    (buildDeploymentPlan
      ⟨fun s => "DevRamps-" ++ s ++ "-Org",
        fun s => "DevRamps-" ++ s ++ "-Pipeline",
        fun a b => "DevRamps-" ++ a ++ "-" ++ b ++ "-Stage",
        "DevRamps-Account-Bootstrap",
        fun s => "DevRamps-" ++ s ++ "-Import"⟩
      [⟨"p1", ["222222222222"], [⟨"prod", "222222222222", "us-east-1"⟩],
        [], []⟩]
      (fun _ => ⟨[], []⟩) (fun a => a) (fun _ => [])
      ⟨"acme", "111111111111", "us-east-1"⟩
      (fun _ _ _ => .CREATE)).accountStacks.head? =
      some { stackName := "DevRamps-Account-Bootstrap"
             accountId := "111111111111"
             region := "us-east-1"
             action := .CREATE } := by
  exact (C2_plan_account_coverage
    ⟨fun s => "DevRamps-" ++ s ++ "-Org",
      fun s => "DevRamps-" ++ s ++ "-Pipeline",
      fun a b => "DevRamps-" ++ a ++ "-" ++ b ++ "-Stage",
      "DevRamps-Account-Bootstrap",
      fun s => "DevRamps-" ++ s ++ "-Import"⟩
    [⟨"p1", ["222222222222"], [⟨"prod", "222222222222", "us-east-1"⟩],
      [], []⟩]
    (fun _ => ⟨[], []⟩) (fun a => a) (fun _ => [])
    ⟨"acme", "111111111111", "us-east-1"⟩
    (fun _ _ _ => .CREATE)).2.2

/-! ## The phased concurrent executor (`src/commands/bootstrap.ts`,
`executeDeployment`)

Phase 1 deploys every Account stack via `Promise.all`; Phase 2 (Org,
Pipeline, Stage, Import stacks) is reached only after `await Promise.all`
returns and only when no Phase-1 result failed.  The concurrency is
modelled by traces: spawning a phase's tasks emits their start events in
spawn order (the `async` bodies begin synchronously during the `map`),
the tasks then resolve in an arbitrary scheduler-chosen order given by
the `sched1`/`sched2` parameters (constrained to be permutations of the
phase's tasks where a claim needs it), and the code after
`await Promise.all` — abort check, Phase-2 spawning — contributes to the
trace only after every Phase-1 resolution, exactly as the `await` forces.
Each per-stack `try`/`catch` is modelled by an outcome oracle
(`res1`/`res2`, `none` = success, `some msg` = caught failure), so one
stack's failure never cancels its siblings; `Promise.all` returns results
in input order, which is how the aggregated result lists are built. -/

/-- The label `${stack.stackName} (${stack.accountId})` used for Account
(and Import) stack results. -/
def accountStackLabel (s : AccountStackDeployment) : String :=
  s.stackName ++ " (" ++ s.accountId ++ ")"

/-- One `{stack, success, error?}` result object. -/
structure StackResult where
  stack : String
  success : Bool
  error : Option String
deriving DecidableEq, Repr

/-- The Phase-1 `accountResults`, in `Promise.all` (input) order. -/
def accountResultsOf (plan : DeploymentPlan)
    (res1 : AccountStackDeployment → Option String) : List StackResult :=
  plan.accountStacks.map (fun s =>
    ⟨accountStackLabel s, (res1 s).isNone, res1 s⟩)

/-- The Phase-2 tasks in spawn order: the Org stack, then the Pipeline,
Stage, and Import stacks, identified by the labels the code reports. -/
def phase2Keys (plan : DeploymentPlan) : List String :=
  plan.orgStack.stackName ::
    (plan.pipelineStacks.map (·.stackName) ++
      plan.stageStacks.map (·.stackName) ++
      plan.importStacks.map (fun s => s.stackName ++ " (" ++ s.accountId ++ ")"))

/-- The Phase-2 `mainResults`, in `Promise.all` (input) order. -/
def mainResultsOf (plan : DeploymentPlan) (res2 : String → Option String) :
    List StackResult :=
  (phase2Keys plan).map (fun k => ⟨k, (res2 k).isNone, res2 k⟩)

inductive ExecEvent where
  | phase1Start (s : AccountStackDeployment)
  | phase1Resolve (s : AccountStackDeployment) (success : Bool)
  | phase1Abort
  | phase2Start (key : String)
  | phase2Resolve (key : String) (success : Bool)
deriving DecidableEq, Repr

inductive ExecResult where
  | abortedPhase1 (accountResults : List StackResult)
      (failedCount skipped : Nat)
  | completed (accountResults mainResults : List StackResult)
      (successCount failedCount exitCode : Nat)
deriving DecidableEq, Repr

/-- `executeDeployment` (`src/commands/bootstrap.ts`): run Phase 1, abort
(exit 1) reporting the Phase-1 failures if any Account stack failed, else
run Phase 2 and aggregate the final summary. -/
def executeDeployment (plan : DeploymentPlan)
    (res1 : AccountStackDeployment → Option String)
    (res2 : String → Option String)
    (sched1 : List AccountStackDeployment) (sched2 : List String) :
    List ExecEvent × ExecResult :=
  let accountResults := accountResultsOf plan res1
  let failed1 := (accountResults.filter (fun x => !x.success)).length
  let success1 := (accountResults.filter (fun x => x.success)).length
  let remainingStacks := 1 + plan.pipelineStacks.length +
    plan.stageStacks.length + plan.importStacks.length
  let phase1Trace := plan.accountStacks.map ExecEvent.phase1Start ++
    sched1.map (fun s => ExecEvent.phase1Resolve s ((res1 s).isNone))
  if 0 < failed1 then
    (phase1Trace ++ [ExecEvent.phase1Abort],
      .abortedPhase1 accountResults failed1 remainingStacks)
  else
    let mainResults := mainResultsOf plan res2
    let failed2 := (mainResults.filter (fun x => !x.success)).length
    let success2 := (mainResults.filter (fun x => x.success)).length
    (phase1Trace ++ ((phase2Keys plan).map ExecEvent.phase2Start ++
        sched2.map (fun k => ExecEvent.phase2Resolve k ((res2 k).isNone))),
      .completed accountResults mainResults (success1 + success2) failed2
        (if failed2 = 0 then 0 else 1))

theorem executeDeployment_trace (plan : DeploymentPlan)
    (res1 : AccountStackDeployment → Option String)
    (res2 : String → Option String)
    (sched1 : List AccountStackDeployment) (sched2 : List String) :
    (executeDeployment plan res1 res2 sched1 sched2).1 =
      (plan.accountStacks.map ExecEvent.phase1Start ++
        sched1.map (fun s => ExecEvent.phase1Resolve s ((res1 s).isNone))) ++
      (if 0 < ((accountResultsOf plan res1).filter
          (fun x => !x.success)).length then
        [ExecEvent.phase1Abort]
      else
        (phase2Keys plan).map ExecEvent.phase2Start ++
          sched2.map (fun k =>
            ExecEvent.phase2Resolve k ((res2 k).isNone))) := by
  unfold executeDeployment
  by_cases h : 0 < ((accountResultsOf plan res1).filter
      (fun x => !x.success)).length
  · simp only [if_pos h]
  · simp only [if_neg h]

theorem executeDeployment_result (plan : DeploymentPlan)
    (res1 : AccountStackDeployment → Option String)
    (res2 : String → Option String)
    (sched1 : List AccountStackDeployment) (sched2 : List String) :
    (executeDeployment plan res1 res2 sched1 sched2).2 =
      if 0 < ((accountResultsOf plan res1).filter
          (fun x => !x.success)).length then
        .abortedPhase1 (accountResultsOf plan res1)
          ((accountResultsOf plan res1).filter (fun x => !x.success)).length
          (1 + plan.pipelineStacks.length + plan.stageStacks.length +
            plan.importStacks.length)
      else
        .completed (accountResultsOf plan res1) (mainResultsOf plan res2)
          (((accountResultsOf plan res1).filter (fun x => x.success)).length +
            ((mainResultsOf plan res2).filter (fun x => x.success)).length)
          ((mainResultsOf plan res2).filter (fun x => !x.success)).length
          (if ((mainResultsOf plan res2).filter
              (fun x => !x.success)).length = 0 then 0 else 1) := by
  unfold executeDeployment
  by_cases h : 0 < ((accountResultsOf plan res1).filter
      (fun x => !x.success)).length
  · simp only [if_pos h]
  · simp only [if_neg h]

/-- Some Phase-1 result failed iff some Account stack's outcome is a
failure. -/
theorem accountResults_failed_iff (plan : DeploymentPlan)
    (res1 : AccountStackDeployment → Option String) :
    0 < ((accountResultsOf plan res1).filter
        (fun x => !x.success)).length ↔
      ∃ s ∈ plan.accountStacks, (res1 s).isSome = true := by
  rw [List.length_pos]
  constructor
  · intro h
    obtain ⟨x, hx⟩ := List.exists_mem_of_ne_nil _ h
    have hx' := List.mem_filter.mp hx
    obtain ⟨s, hs, hsx⟩ := List.mem_map.mp hx'.1
    refine ⟨s, hs, ?_⟩
    have hb := hx'.2
    rw [← hsx] at hb
    simp only [Bool.not_eq_true'] at hb
    rwa [Option.isNone_eq_false_iff] at hb
  · rintro ⟨s, hs, hsome⟩
    intro hnil
    have hmem : (⟨accountStackLabel s, (res1 s).isNone, res1 s⟩ :
        StackResult) ∈ accountResultsOf plan res1 :=
      List.mem_map.mpr ⟨s, hs, rfl⟩
    have : (⟨accountStackLabel s, (res1 s).isNone, res1 s⟩ :
        StackResult) ∈ (accountResultsOf plan res1).filter
          (fun x => !x.success) := by
      refine List.mem_filter.mpr ⟨hmem, ?_⟩
      simp only [Bool.not_eq_true']
      rw [Option.isNone_eq_false_iff]
      exact hsome
    rw [hnil] at this
    exact absurd this (List.not_mem_nil _)

/-- C1: no Phase-2 deployment starts before every Phase-1 Account-stack
task has resolved (for every interleaving of Phase-1 resolutions), every
Account-stack task does resolve in the trace, and if any Account stack
fails, no Phase-2 task ever starts: the run aborts reporting the Phase-1
results, whose failed entries are exactly the failed Account stacks. -/
theorem C1_phase_barrier (plan : DeploymentPlan)
    (res1 : AccountStackDeployment → Option String)
    (res2 : String → Option String)
    (sched1 : List AccountStackDeployment) (sched2 : List String)
    (hperm : sched1.Perm plan.accountStacks) :
    (∀ (i j : Nat) (s : AccountStackDeployment) (ok : Bool) (k : String),
      ((executeDeployment plan res1 res2 sched1 sched2).1)[i]? =
        some (ExecEvent.phase1Resolve s ok) →
      ((executeDeployment plan res1 res2 sched1 sched2).1)[j]? =
        some (ExecEvent.phase2Start k) → i < j) ∧
    (∀ s ∈ plan.accountStacks,
      ExecEvent.phase1Resolve s ((res1 s).isNone) ∈
        (executeDeployment plan res1 res2 sched1 sched2).1) ∧
    ((∃ s ∈ plan.accountStacks, (res1 s).isSome = true) →
      (∀ k, ExecEvent.phase2Start k ∉
        (executeDeployment plan res1 res2 sched1 sched2).1) ∧
      (executeDeployment plan res1 res2 sched1 sched2).2 =
        .abortedPhase1 (accountResultsOf plan res1)
          ((accountResultsOf plan res1).filter (fun x => !x.success)).length
          (1 + plan.pipelineStacks.length + plan.stageStacks.length +
            plan.importStacks.length) ∧
      (∀ s ∈ plan.accountStacks, (res1 s).isSome = true →
        (⟨accountStackLabel s, false, res1 s⟩ : StackResult) ∈
          accountResultsOf plan res1)) := by
  refine ⟨?_, ?_, ?_⟩
  · intro i j s ok k hi hj
    rw [executeDeployment_trace] at hi hj
    have hilt : i < (plan.accountStacks.map ExecEvent.phase1Start ++
        sched1.map (fun s =>
          ExecEvent.phase1Resolve s ((res1 s).isNone))).length := by
      by_contra hge
      push_neg at hge
      rw [List.getElem?_append_right hge] at hi
      have hmem := List.getElem?_mem hi
      by_cases hf : 0 < ((accountResultsOf plan res1).filter
          (fun x => !x.success)).length
      · rw [if_pos hf] at hmem
        simp at hmem
      · rw [if_neg hf] at hmem
        rcases List.mem_append.mp hmem with hmem | hmem
        · obtain ⟨_, _, habs⟩ := List.mem_map.mp hmem
          exact absurd habs (by simp)
        · obtain ⟨_, _, habs⟩ := List.mem_map.mp hmem
          exact absurd habs (by simp)
    have hjge : (plan.accountStacks.map ExecEvent.phase1Start ++
        sched1.map (fun s =>
          ExecEvent.phase1Resolve s ((res1 s).isNone))).length ≤ j := by
      by_contra hlt
      push_neg at hlt
      rw [List.getElem?_append_left hlt] at hj
      have hmem := List.getElem?_mem hj
      rcases List.mem_append.mp hmem with hmem | hmem
      · obtain ⟨_, _, habs⟩ := List.mem_map.mp hmem
        exact absurd habs (by simp)
      · obtain ⟨_, _, habs⟩ := List.mem_map.mp hmem
        exact absurd habs (by simp)
    exact lt_of_lt_of_le hilt hjge
  · intro s hs
    rw [executeDeployment_trace]
    refine List.mem_append.mpr (Or.inl (List.mem_append.mpr (Or.inr ?_)))
    exact List.mem_map.mpr ⟨s, hperm.mem_iff.mpr hs, rfl⟩
  · intro hex
    have hfail := (accountResults_failed_iff plan res1).mpr hex
    refine ⟨?_, ?_, ?_⟩
    · intro k hk
      rw [executeDeployment_trace, if_pos hfail] at hk
      rcases List.mem_append.mp hk with hk | hk
      · rcases List.mem_append.mp hk with hk | hk
        · obtain ⟨_, _, habs⟩ := List.mem_map.mp hk
          exact absurd habs (by simp)
        · obtain ⟨_, _, habs⟩ := List.mem_map.mp hk
          exact absurd habs (by simp)
      · simp at hk
    · rw [executeDeployment_result, if_pos hfail]
    · intro s hs hsome
      obtain ⟨v, hv⟩ := Option.isSome_iff_exists.mp hsome
      have : (⟨accountStackLabel s, (res1 s).isNone, res1 s⟩ :
          StackResult) ∈ accountResultsOf plan res1 :=
        List.mem_map.mpr ⟨s, hs, rfl⟩
      rwa [hv] at this ⊢

/-- Witness for C1: two Account stacks, the second failing role
assumption, resolving in reversed order; Phase 2 never starts and the run
aborts reporting the one failure. -/
theorem C1_phase_barrier_witness :
    ExecEvent.phase2Start "DevRamps-acme-Org" ∉
      (executeDeployment
        ⟨"acme", "111111111111", "us-east-1",
          ⟨"DevRamps-acme-Org", "111111111111", "us-east-1", .CREATE,
            "acme", ["222222222222"]⟩,
          [],
          [⟨"DevRamps-Account-Bootstrap", "111111111111", "us-east-1",
            .UPDATE⟩,
           ⟨"DevRamps-Account-Bootstrap", "222222222222", "us-east-1",
            .CREATE⟩],
          [], []⟩
        (fun s => if s.accountId = "222222222222" then
          some "AccessDenied" else none)
        (fun _ => none)
        [⟨"DevRamps-Account-Bootstrap", "222222222222", "us-east-1",
          .CREATE⟩,
         ⟨"DevRamps-Account-Bootstrap", "111111111111", "us-east-1",
          .UPDATE⟩]
        []).1 ∧
    (executeDeployment
        ⟨"acme", "111111111111", "us-east-1",
          ⟨"DevRamps-acme-Org", "111111111111", "us-east-1", .CREATE,
            "acme", ["222222222222"]⟩,
          [],
          [⟨"DevRamps-Account-Bootstrap", "111111111111", "us-east-1",
            .UPDATE⟩,
           ⟨"DevRamps-Account-Bootstrap", "222222222222", "us-east-1",
            .CREATE⟩],
          [], []⟩
        (fun s => if s.accountId = "222222222222" then
          some "AccessDenied" else none)
        (fun _ => none)
        [⟨"DevRamps-Account-Bootstrap", "222222222222", "us-east-1",
          .CREATE⟩,
         ⟨"DevRamps-Account-Bootstrap", "111111111111", "us-east-1",
          .UPDATE⟩]
        []).2 =
      .abortedPhase1
        [⟨"DevRamps-Account-Bootstrap (111111111111)", true, none⟩,
         ⟨"DevRamps-Account-Bootstrap (222222222222)", false,
           some "AccessDenied"⟩] 1 1 := by
  have h := C1_phase_barrier
    ⟨"acme", "111111111111", "us-east-1",
      ⟨"DevRamps-acme-Org", "111111111111", "us-east-1", .CREATE,
        "acme", ["222222222222"]⟩,
      [],
      [⟨"DevRamps-Account-Bootstrap", "111111111111", "us-east-1",
        .UPDATE⟩,
       ⟨"DevRamps-Account-Bootstrap", "222222222222", "us-east-1",
        .CREATE⟩],
      [], []⟩
    (fun s => if s.accountId = "222222222222" then
      some "AccessDenied" else none)
    (fun _ => none)
    [⟨"DevRamps-Account-Bootstrap", "222222222222", "us-east-1", .CREATE⟩,
     ⟨"DevRamps-Account-Bootstrap", "111111111111", "us-east-1", .UPDATE⟩]
    [] (by decide)
  obtain ⟨hno, hres, _⟩ := h.2.2
    ⟨⟨"DevRamps-Account-Bootstrap", "222222222222", "us-east-1", .CREATE⟩,
      by decide, by decide⟩
  refine ⟨hno "DevRamps-acme-Org", ?_⟩
  rw [hres]
  rfl

end DevRampsCLI
